import Mathlib

/-
  Verification development for the ship-sim maritime movement simulator.

  The TypeScript sources are shallowly embedded over the real numbers:
  JavaScript numbers become `ℝ`, `number | undefined` becomes `Option ℝ`,
  arrays become `List`, and `Math.atan2` / `Math.sign` / the JS `%`
  remainder are modelled by `atan2` (via `Complex.arg`), `Real.sign`
  and `jsMod` below.  Field and function names follow the source.
-/

namespace ShipSim

noncomputable section

open Real Classical

/-- Earth's radius in nautical miles, as used throughout `geoUtils.ts`. -/
def R : ℝ := 3440.065

/-- `toRadians` from geoUtils.ts. -/
def toRadians (degrees : ℝ) : ℝ := degrees * (π / 180)

/-- `toDegrees` from geoUtils.ts. -/
def toDegrees (radians : ℝ) : ℝ := radians * (180 / π)

/-- Model of JavaScript `Math.atan2 y x`: the argument of the complex
    number `x + y i`, in `(-π, π]`, with `atan2 0 0 = 0`. -/
def atan2 (y x : ℝ) : ℝ := Complex.arg ⟨x, y⟩

/-- Model of the JavaScript `%` remainder: `a - n * trunc (a / n)`
    (truncation toward zero, result carries the sign of the dividend). -/
def jsMod (a n : ℝ) : ℝ :=
  a - n * ((if 0 ≤ a / n then ⌊a / n⌋ else ⌈a / n⌉ : ℤ) : ℝ)

/-- `calculateDestination` from geoUtils.ts: spherical projection of a
    start point by a distance (NM) along a bearing (degrees, 0° = N). -/
def calculateDestination (startLat startLon distance bearing : ℝ) : ℝ × ℝ :=
  let d := distance
  let brng := toRadians bearing
  let lat1 := toRadians startLat
  let lon1 := toRadians startLon
  let lat2 := arcsin (sin lat1 * cos (d / R) + cos lat1 * sin (d / R) * cos brng)
  let lon2 := lon1 +
    atan2 (sin brng * sin (d / R) * cos lat1) (cos (d / R) - sin lat1 * sin lat2)
  (toDegrees lat2, toDegrees lon2)

/-- `calculateDistance` from geoUtils.ts: haversine great-circle distance
    in nautical miles. -/
def calculateDistance (lat1 lon1 lat2 lon2 : ℝ) : ℝ :=
  let φ1 := toRadians lat1
  let φ2 := toRadians lat2
  let Δφ := toRadians (lat2 - lat1)
  let Δlam := toRadians (lon2 - lon1)
  let a := sin (Δφ / 2) * sin (Δφ / 2) + cos φ1 * cos φ2 * (sin (Δlam / 2) * sin (Δlam / 2))
  let c := 2 * atan2 (Real.sqrt a) (Real.sqrt (1 - a))
  R * c

/-- `calculateBearing` from geoUtils.ts: initial great-circle bearing from
    point 1 to point 2, in degrees `[0, 360)`. -/
def calculateBearing (lat1 lon1 lat2 lon2 : ℝ) : ℝ :=
  let φ1 := toRadians lat1
  let φ2 := toRadians lat2
  let Δlam := toRadians (lon2 - lon1)
  let y := sin Δlam * cos φ2
  let x := cos φ1 * sin φ2 - sin φ1 * cos φ2 * cos Δlam
  let bearing := toDegrees (atan2 y x)
  if bearing < 0 then bearing + 360 else bearing

/-- `calculateShipMovement` from geoUtils.ts: advance a position along the
    heading at the given speed (knots) for the given minutes. -/
def calculateShipMovement (currentLat currentLon speed heading minutes : ℝ) : ℝ × ℝ :=
  calculateDestination currentLat currentLon (speed / 60 * minutes) heading

/-- The `!demandedCourse` branch of `calculateNewHeading`: with no (or a
    zero, hence falsy) demanded course the turn rate decays toward 0 and
    the heading advances by the decayed rate. -/
def headingDecay (currentHeading currentTurnRate minutes : ℝ) : ℝ × ℝ :=
  if currentTurnRate = 0 then (currentHeading, 0)
  else
    let turnDeceleration : ℝ := 1.0
    let newTurnRate :=
      if |currentTurnRate| ≤ turnDeceleration * minutes * 60 then 0
      else currentTurnRate - Real.sign currentTurnRate * (turnDeceleration * minutes * 60)
    (jsMod (currentHeading + newTurnRate * minutes + 360) 360, newTurnRate)

/-- `calculateNewHeading` from geoUtils.ts (the `[newHeading, newTurnRate]`
    version).  A demanded course that is `undefined` or exactly `0` is
    falsy in `!demandedCourse` and takes the decay branch. -/
def calculateNewHeading (currentHeading currentTurnRate : ℝ)
    (demandedCourse : Option ℝ) (minutes : ℝ) : ℝ × ℝ :=
  match demandedCourse with
  | none => headingDecay currentHeading currentTurnRate minutes
  | some dc =>
    if dc = 0 then headingDecay currentHeading currentTurnRate minutes
    else
      let diff0 := dc - currentHeading
      let diff1 := if diff0 > 180 then diff0 - 360 else diff0
      let diff := if diff1 < -180 then diff1 + 360 else diff1
      let maxTurnRate : ℝ := 3.0
      let turnAcceleration : ℝ := 0.5
      let targetTurnRate := Real.sign diff * min maxTurnRate (|diff| / minutes)
      let turnRateDiff := targetTurnRate - currentTurnRate
      let maxRateChange := turnAcceleration * minutes * 60
      let turnRateChange := Real.sign turnRateDiff * min |turnRateDiff| maxRateChange
      let newTurnRate := currentTurnRate + turnRateChange
      let newHeading := jsMod (currentHeading + newTurnRate * minutes + 360) 360
      if (diff > 0 ∧ newHeading ≥ dc) ∨ (diff < 0 ∧ newHeading ≤ dc) then (dc, 0)
      else (newHeading, newTurnRate)

/-- `calculateNewSpeed` from geoUtils.ts.  A demanded speed that is
    `undefined` or exactly `0` is falsy in `!demandedSpeed` and leaves the
    current speed unchanged. -/
def calculateNewSpeed (currentSpeed : ℝ) (demandedSpeed : Option ℝ) (minutes : ℝ) : ℝ :=
  match demandedSpeed with
  | none => currentSpeed
  | some ds =>
    if ds = 0 then currentSpeed
    else
      let speedChangeRate : ℝ := 1
      let maxSpeedChange := speedChangeRate * minutes
      let diff := ds - currentSpeed
      if |diff| ≤ maxSpeedChange then ds
      else currentSpeed + Real.sign diff * maxSpeedChange

/-- `CollisionPoint` record from geoUtils.ts / types.ts. -/
structure CollisionPoint where
  latitude : ℝ
  longitude : ℝ
  timeToCollision : ℝ

/-- The relative-velocity components `vx, vy` of `calculateCollisionPoint`
    (other ship's velocity minus own, in NM/minute). -/
def cpaVx (ship1Heading ship1Speed ship2Heading ship2Speed : ℝ) : ℝ :=
  ship2Speed / 60 * sin (toRadians ship2Heading) - ship1Speed / 60 * sin (toRadians ship1Heading)

def cpaVy (ship1Heading ship1Speed ship2Heading ship2Speed : ℝ) : ℝ :=
  ship2Speed / 60 * cos (toRadians ship2Heading) - ship1Speed / 60 * cos (toRadians ship1Heading)

/-- The flat-earth relative-position components `dx, dy` of
    `calculateCollisionPoint` (NM). -/
def cpaDx (ship1Lat ship1Lon ship2Lat ship2Lon : ℝ) : ℝ :=
  (ship2Lon - ship1Lon) * 60 * cos (toRadians ((ship1Lat + ship2Lat) / 2))

def cpaDy (ship1Lat ship2Lat : ℝ) : ℝ := (ship2Lat - ship1Lat) * 60

/-- Quadratic coefficient `a = vx² + vy²` of `calculateCollisionPoint`. -/
def cpaA (ship1Heading ship1Speed ship2Heading ship2Speed : ℝ) : ℝ :=
  cpaVx ship1Heading ship1Speed ship2Heading ship2Speed *
      cpaVx ship1Heading ship1Speed ship2Heading ship2Speed +
    cpaVy ship1Heading ship1Speed ship2Heading ship2Speed *
      cpaVy ship1Heading ship1Speed ship2Heading ship2Speed

/-- Quadratic coefficient `b = 2 (dx·vx + dy·vy)` of `calculateCollisionPoint`. -/
def cpaB (ship1Lat ship1Lon ship1Heading ship1Speed ship2Lat ship2Lon ship2Heading ship2Speed : ℝ) : ℝ :=
  2 * (cpaDx ship1Lat ship1Lon ship2Lat ship2Lon *
        cpaVx ship1Heading ship1Speed ship2Heading ship2Speed +
      cpaDy ship1Lat ship2Lat * cpaVy ship1Heading ship1Speed ship2Heading ship2Speed)

/-- Quadratic coefficient `c = dx² + dy²` of `calculateCollisionPoint`. -/
def cpaC (ship1Lat ship1Lon ship2Lat ship2Lon : ℝ) : ℝ :=
  cpaDx ship1Lat ship1Lon ship2Lat ship2Lon * cpaDx ship1Lat ship1Lon ship2Lat ship2Lon +
    cpaDy ship1Lat ship2Lat * cpaDy ship1Lat ship2Lat

/-- Time of closest approach `t* = -b / (2a)` in minutes. -/
def cpaT (ship1Lat ship1Lon ship1Heading ship1Speed ship2Lat ship2Lon ship2Heading ship2Speed : ℝ) : ℝ :=
  -cpaB ship1Lat ship1Lon ship1Heading ship1Speed ship2Lat ship2Lon ship2Heading ship2Speed /
    (2 * cpaA ship1Heading ship1Speed ship2Heading ship2Speed)

/-- Projected own-ship position at the time of closest approach. -/
def cpaLat (ship1Lat ship1Lon ship1Heading ship1Speed ship2Lat ship2Lon ship2Heading ship2Speed : ℝ) : ℝ :=
  ship1Lat + ship1Speed / 60 * cos (toRadians ship1Heading) *
      cpaT ship1Lat ship1Lon ship1Heading ship1Speed ship2Lat ship2Lon ship2Heading ship2Speed / 60

def cpaLon (ship1Lat ship1Lon ship1Heading ship1Speed ship2Lat ship2Lon ship2Heading ship2Speed : ℝ) : ℝ :=
  ship1Lon + ship1Speed / 60 * sin (toRadians ship1Heading) *
      cpaT ship1Lat ship1Lon ship1Heading ship1Speed ship2Lat ship2Lon ship2Heading ship2Speed /
    (60 * cos (toRadians ship1Lat))

/-- Separation (haversine) between own ship's current position and its
    projected position at the time of closest approach. -/
def cpaDistance (ship1Lat ship1Lon ship1Heading ship1Speed ship2Lat ship2Lon ship2Heading ship2Speed : ℝ) : ℝ :=
  calculateDistance ship1Lat ship1Lon
    (cpaLat ship1Lat ship1Lon ship1Heading ship1Speed ship2Lat ship2Lon ship2Heading ship2Speed)
    (cpaLon ship1Lat ship1Lon ship1Heading ship1Speed ship2Lat ship2Lon ship2Heading ship2Speed)

/-- `calculateCollisionPoint` from geoUtils.ts: closest-point-of-approach
    prediction on a local flat-earth frame; `none` models the `undefined`
    returns of the source. -/
def calculateCollisionPoint (ship1Lat ship1Lon ship1Heading ship1Speed
    ship2Lat ship2Lon ship2Heading ship2Speed : ℝ) : Option CollisionPoint :=
  let a := cpaA ship1Heading ship1Speed ship2Heading ship2Speed
  let b := cpaB ship1Lat ship1Lon ship1Heading ship1Speed ship2Lat ship2Lon ship2Heading ship2Speed
  let c := cpaC ship1Lat ship1Lon ship2Lat ship2Lon
  if |a| < 1e-10 then none
  else
    let discriminant := b * b - 4 * a * c
    if discriminant < 0 then none
    else
      let t := cpaT ship1Lat ship1Lon ship1Heading ship1Speed ship2Lat ship2Lon ship2Heading ship2Speed
      if t < 0 then none
      else
        if cpaDistance ship1Lat ship1Lon ship1Heading ship1Speed ship2Lat ship2Lon ship2Heading ship2Speed > 0.5 then none
        else
          some ⟨cpaLat ship1Lat ship1Lon ship1Heading ship1Speed ship2Lat ship2Lon ship2Heading ship2Speed,
            cpaLon ship1Lat ship1Lon ship1Heading ship1Speed ship2Lat ship2Lon ship2Heading ship2Speed,
            t⟩

/-- Element type of the `otherShips` arrays passed to the geoUtils
    collision helpers (`{id; latitude; longitude; heading; speed}`).
    Ship ids are modelled as naturals instead of strings. -/
structure OtherShip where
  id : ℕ
  latitude : ℝ
  longitude : ℝ
  heading : ℝ
  speed : ℝ

/-- `CollisionRisk` record from geoUtils.ts / types.ts. -/
structure CollisionRisk where
  shipId : ℕ
  bearing : ℝ
  distance : ℝ
  relativeSpeed : ℝ
  collisionPoint : Option CollisionPoint

/-- The relative-speed expression of `findCollisionRisks` / `isConeBlocked`:
    `speed·cos(|bearing−heading|) − otherSpeed·cos(|bearing−otherHeading|)`
    (angles taken in radians). -/
def riskRelativeSpeed (heading speed bearing otherHeading otherSpeed : ℝ) : ℝ :=
  speed * cos (toRadians |bearing - heading|) -
    otherSpeed * cos (toRadians |bearing - otherHeading|)

/-- `findCollisionRisks` from geoUtils.ts: map every other ship to a risk
    record, keeping those with distance < 4 NM, plain `|bearing − heading|`
    at most 90°, and negative relative speed. -/
def findCollisionRisks (shipId : ℕ) (shipLat shipLon heading speed : ℝ)
    (otherShips : List OtherShip) : List CollisionRisk :=
  ((otherShips.filter fun other => other.id != shipId).map fun other =>
    let bearing := calculateBearing shipLat shipLon other.latitude other.longitude
    { shipId := other.id
      bearing := bearing
      distance := calculateDistance shipLat shipLon other.latitude other.longitude
      relativeSpeed := riskRelativeSpeed heading speed bearing other.heading other.speed
      collisionPoint := calculateCollisionPoint shipLat shipLon heading speed
        other.latitude other.longitude other.heading other.speed }).filter
    fun risk =>
      decide (risk.distance < 4) && decide (|risk.bearing - heading| ≤ 90) &&
        decide (risk.relativeSpeed < 0)

/-- `isPointInCone` from geoUtils.ts: the point is within `radius` of the
    apex and its bearing from the apex deviates from `heading` by at most
    `angle` degrees (wrap via `min d (360 − d)`). -/
def isPointInCone (apexLat apexLon heading radius angle pointLat pointLon : ℝ) : Bool :=
  let distance := calculateDistance apexLat apexLon pointLat pointLon
  if distance > radius then false
  else
    let bearing := calculateBearing apexLat apexLon pointLat pointLon
    let diff0 := |bearing - heading|
    let diff := if diff0 > 180 then 360 - diff0 else diff0
    decide (diff ≤ angle)

/-- `isConeBlocked` from geoUtils.ts: some other ship is roughly ahead
    (plain `|bearing − heading| ≤ 90`), closing (`relativeSpeed < 0`), and
    inside the forward cone. -/
def isConeBlocked (shipLat shipLon heading speed : ℝ) (otherShips : List OtherShip)
    (coneRadius coneAngle : ℝ) : Bool :=
  otherShips.any fun other =>
    let bearing := calculateBearing shipLat shipLon other.latitude other.longitude
    let relativeBearing := |bearing - heading|
    if relativeBearing > 90 then false
    else if riskRelativeSpeed heading speed bearing other.heading other.speed ≥ 0 then false
    else isPointInCone shipLat shipLon heading coneRadius coneAngle other.latitude other.longitude

/-- The `for (let turn = 10; turn <= 180; turn += 10)` loop of
    `findClearHeading`, entered at `turn = 10`. -/
def scanStarboard (shipLat shipLon currentHeading speed : ℝ) (otherShips : List OtherShip)
    (turn : ℕ) : Option ℝ :=
  if h : turn ≤ 180 then
    let newHeading := jsMod (currentHeading + (turn : ℝ)) 360
    if isConeBlocked shipLat shipLon newHeading speed otherShips 2 15 then
      scanStarboard shipLat shipLon currentHeading speed otherShips (turn + 10)
    else some newHeading
  else none
termination_by 181 - turn

/-- `findClearHeading` from geoUtils.ts (lines 652-684): returns `none`
    when no other ship is within 4 NM, the current heading when its cone is
    unblocked, and otherwise scans 10°-steps to starboard only. -/
def findClearHeading (shipLat shipLon currentHeading speed : ℝ)
    (otherShips : List OtherShip) : Option ℝ :=
  let bearings := otherShips.map fun other =>
    (calculateBearing shipLat shipLon other.latitude other.longitude,
      calculateDistance shipLat shipLon other.latitude other.longitude)
  if !bearings.any fun b => decide (b.2 < 4) then none
  else if !isConeBlocked shipLat shipLon currentHeading speed otherShips 2 15 then
    some currentHeading
  else scanStarboard shipLat shipLon currentHeading speed otherShips 10

/-- Vessel status from types.ts. -/
inductive ShipStatus
  | underway
  | anchored
  | moored
  | aground
  | disabled
deriving DecidableEq

/-- `position` record of a ship. -/
structure Position where
  latitude : ℝ
  longitude : ℝ

/-- `dimensions` record of a ship (metres). -/
structure Dimensions where
  length : ℝ
  beam : ℝ
  draft : ℝ

/-- Trail point from types.ts: snapshot of a ship's state before a motion
    update.  The `Date` timestamp is modelled as a natural number. -/
structure TrailPoint where
  latitude : ℝ
  longitude : ℝ
  timestamp : ℕ
  heading : ℝ
  speed : ℝ
  demandedCourse : Option ℝ
  demandedSpeed : Option ℝ
  status : ShipStatus
  avoidingLand : Bool

/-- The distinct `reason` strings a navigation behavior can produce; the
    string templates of the source are modelled by this enumeration. -/
inductive AvoidanceReason
  | groundNewCourse
  | groundNoClearHeading
  | shipNewCourse
  | shipNoClearHeading
  | returningToSpawn
deriving DecidableEq

/-- The three default navigation behaviors, in the priority order fixed by
    `BehaviorManager` (1, 2, 8). -/
inductive BehaviorKind
  | groundAvoidance
  | shipCollisionAvoidance
  | returnToSpawn
deriving DecidableEq

/-- `Ship` record from types.ts.  Ship ids and names are naturals instead
    of strings; `avoidanceReason` holds an `AvoidanceReason`. -/
structure Ship where
  id : ℕ
  position : Position
  heading : ℝ
  demandedCourse : Option ℝ
  turnRate : ℝ
  speed : ℝ
  demandedSpeed : Option ℝ
  normalSpeed : Option ℝ
  dimensions : Dimensions
  status : ShipStatus
  collisionAvoidanceActive : Bool
  collisionRisks : List CollisionRisk
  avoidingLand : Bool
  avoidanceReason : Option AvoidanceReason
  trail : List TrailPoint

/-- `NavigationDecision` from NavigationBehavior.ts. -/
structure NavigationDecision where
  demandedCourse : Option ℝ
  demandedSpeed : Option ℝ
  storeNormalSpeed : Bool
  reason : AvoidanceReason

/-- Projection of a `Ship` to the `{id; latitude; longitude; heading;
    speed}` records the behaviors pass to the geoUtils helpers. -/
def toOtherShip (s : Ship) : OtherShip :=
  ⟨s.id, s.position.latitude, s.position.longitude, s.heading, s.speed⟩

/-- A land polygon: ring of `[longitude, latitude]` vertices. -/
def LandPolygon := List (ℝ × ℝ)

/-- Modelled from the spec: `isPointInPolygon` is used by the engine and
    the tests but its definition is missing from the provided sources.
    Spec: even-odd ray-casting on the ring, auto-closing the ring if the
    first and last vertices differ.  One edge toggles the parity when the
    horizontal ray from `point` crosses it. -/
def rayCrossesEdge (point a b : ℝ × ℝ) : Bool :=
  decide (((a.2 > point.2) ≠ (b.2 > point.2)) ∧
    point.1 < (b.1 - a.1) * (point.2 - a.2) / (b.2 - a.2) + a.1)

/-- Modelled from the spec: auto-close the ring if first ≠ last vertex. -/
def closeRing (ring : List (ℝ × ℝ)) : List (ℝ × ℝ) :=
  match ring.head?, ring.getLast? with
  | some first, some last => if first ≠ last then ring ++ [first] else ring
  | _, _ => ring

/-- Modelled from the spec: even-odd ray-casting point-in-polygon test on
    the auto-closed ring. -/
def isPointInPolygon (point : ℝ × ℝ) (polygon : LandPolygon) : Bool :=
  let ring := closeRing polygon
  (ring.zip ring.tail).foldl (fun inside e => xor inside (rayCrossesEdge point e.1 e.2)) false

/-- Orientation test for segment intersection (cross product of `pq` and
    `pr`). -/
def orient (p q r : ℝ × ℝ) : ℝ :=
  (q.1 - p.1) * (r.2 - p.2) - (q.2 - p.2) * (r.1 - p.1)

/-- Proper crossing of segments `p1p2` and `q1q2`. -/
def segmentsCross (p1 p2 q1 q2 : ℝ × ℝ) : Bool :=
  decide (orient p1 p2 q1 * orient p1 p2 q2 < 0 ∧ orient q1 q2 p1 * orient q1 q2 p2 < 0)

/-- Consecutive-vertex edges of a ring. -/
def ringEdges (ring : List (ℝ × ℝ)) : List ((ℝ × ℝ) × (ℝ × ℝ)) :=
  ring.zip ring.tail

/-- Modelled from the spec: `isConeIntersectingPolygon` is used by the
    behaviors and the tests but its definition is missing from the provided
    sources.  Spec: true if the apex is inside the ring, or if a fan of 20
    rays sampled across `[heading−angle, heading+angle]` at `radius`,
    built into a closed sector polygon, geometrically intersects the ring
    (some vertex of one polygon inside the other, or some pair of edges
    properly crossing). -/
def isConeIntersectingPolygon (apexLat apexLon heading radius angle : ℝ)
    (polygon : LandPolygon) : Bool :=
  let apex : ℝ × ℝ := (apexLon, apexLat)
  if isPointInPolygon apex polygon then true
  else
    let n : ℕ := 20
    let rayPoints : List (ℝ × ℝ) :=
      (List.range (n + 1)).map fun i =>
        let brg := heading - angle + (2 * angle) * (i : ℝ) / (n : ℝ)
        let p := calculateDestination apexLat apexLon radius brg
        (p.2, p.1)
    let sector := closeRing (apex :: rayPoints)
    let ring := closeRing polygon
    sector.any (fun v => isPointInPolygon v polygon) ||
      ring.any (fun v => isPointInPolygon v (apex :: rayPoints)) ||
        (ringEdges sector).any fun e =>
          (ringEdges ring).any fun f => segmentsCross e.1 e.2 f.1 f.2

/-- Modelled from the spec: blocked-cone test of the land-aware
    `clearHeading` search: the 2 NM / 15° cone at `h` holds a closing-ship
    risk or intersects some land polygon. -/
def blockedWithLand (shipLat shipLon h speed : ℝ) (otherShips : List OtherShip)
    (landPolygons : List LandPolygon) : Bool :=
  isConeBlocked shipLat shipLon h speed otherShips 2 15 ||
    landPolygons.any fun polygon =>
      isConeIntersectingPolygon shipLat shipLon h 2 15 polygon

/-- Modelled from the spec: the land-aware `findClearHeading` (six
    arguments) called by the behaviors is missing from the provided
    sources.  Spec: if the current heading's 2 NM/15° cone is free of both
    closing-ship risk and land intersection, return it unchanged; else scan
    headings at +10° increments to +180° (starboard), then −10° to −180°
    (port), returning the first clear one; return none if the exhaustive
    search fails. -/
def findClearHeadingWithLand (shipLat shipLon currentHeading speed : ℝ)
    (otherShips : List OtherShip) (landPolygons : List LandPolygon) : Option ℝ :=
  if !blockedWithLand shipLat shipLon currentHeading speed otherShips landPolygons then
    some currentHeading
  else
    let starboard := (List.range 18).map fun k =>
      jsMod (currentHeading + ((10 * (k + 1) : ℕ) : ℝ)) 360
    let port := (List.range 18).map fun k =>
      jsMod (currentHeading - ((10 * (k + 1) : ℕ) : ℝ) + 360) 360
    (starboard ++ port).find? fun h =>
      !blockedWithLand shipLat shipLon h speed otherShips landPolygons

/-- `SPAWN_POINT` from config/constants.ts. -/
def SPAWN_POINT : Position := ⟨50.3, -1.4⟩

/-- `MAX_DISTANCE_NM` from config/constants.ts (70 km in NM). -/
def MAX_DISTANCE_NM : ℝ := 70 / 1.852

/-- `GroundAvoidanceBehavior.evaluate`: abstain unless the forward
    2 NM/15° cone intersects land; then propose a clear heading (when one
    exists) and a speed reduction to 2/3 of the base speed. -/
def groundAvoidanceEvaluate (ship : Ship) (otherShips : List Ship)
    (landPolygons : List LandPolygon) : Option NavigationDecision :=
  if ship.status = .disabled ∨ ship.status = .aground then none
  else
    let isHeadingTowardsLand := landPolygons.any fun polygon =>
      isConeIntersectingPolygon ship.position.latitude ship.position.longitude
        ship.heading 2 15 polygon
    if !isHeadingTowardsLand then none
    else
      let otherShipsData := (otherShips.filter fun other => other.id != ship.id).map toOtherShip
      let clearHeading := findClearHeadingWithLand ship.position.latitude
        ship.position.longitude ship.heading ship.speed otherShipsData landPolygons
      let baseSpeed := ship.normalSpeed.getD ship.speed
      let targetSpeed := baseSpeed * 0.67
      match clearHeading with
      | none =>
        some ⟨none, some targetSpeed,
          ship.normalSpeed.isNone && ship.demandedSpeed.isSome, .groundNoClearHeading⟩
      | some h =>
        some ⟨some h, some targetSpeed,
          ship.normalSpeed.isNone && ship.demandedSpeed.isSome, .groundNewCourse⟩

/-- `ShipCollisionAvoidanceBehavior.evaluate`: abstain when there is no
    collision risk against active other ships; otherwise the same
    course/speed proposal logic as ground avoidance. -/
def shipCollisionAvoidanceEvaluate (ship : Ship) (otherShips : List Ship)
    (landPolygons : List LandPolygon) : Option NavigationDecision :=
  if ship.status = .disabled ∨ ship.status = .aground then none
  else
    let otherShipsData :=
      (otherShips.filter fun other =>
        other.id != ship.id && !(other.status = .disabled) && !(other.status = .aground)).map
        toOtherShip
    let collisionRisks := findCollisionRisks ship.id ship.position.latitude
      ship.position.longitude ship.heading ship.speed otherShipsData
    if collisionRisks.length = 0 then none
    else
      let clearHeading := findClearHeadingWithLand ship.position.latitude
        ship.position.longitude ship.heading ship.speed otherShipsData landPolygons
      let baseSpeed := ship.normalSpeed.getD ship.speed
      let targetSpeed := baseSpeed * 0.67
      match clearHeading with
      | none =>
        some ⟨none, some targetSpeed,
          ship.normalSpeed.isNone && ship.demandedSpeed.isSome, .shipNoClearHeading⟩
      | some h =>
        some ⟨some h, some targetSpeed,
          ship.normalSpeed.isNone && ship.demandedSpeed.isSome, .shipNewCourse⟩

/-- `ReturnToSpawnBehavior.evaluate`: abstain unless underway and further
    than `MAX_DISTANCE_NM` from the spawn point (planar distance); then
    demand the bearing back to spawn. -/
def returnToSpawnEvaluate (ship : Ship) : Option NavigationDecision :=
  if ship.status ≠ .underway then none
  else
    let distanceFromSpawn := Real.sqrt
      (((ship.position.latitude - SPAWN_POINT.latitude) * 60) ^ 2 +
        ((ship.position.longitude - SPAWN_POINT.longitude) * 60 *
          cos (ship.position.latitude * π / 180)) ^ 2)
    if distanceFromSpawn ≤ MAX_DISTANCE_NM then none
    else
      let dLon := (SPAWN_POINT.longitude - ship.position.longitude) * π / 180
      let lat1 := ship.position.latitude * π / 180
      let lat2 := SPAWN_POINT.latitude * π / 180
      let y := sin dLon * cos lat2
      let x := cos lat1 * sin lat2 - sin lat1 * cos lat2 * cos dLon
      let bearing := jsMod (atan2 y x * 180 / π + 360) 360
      some ⟨some bearing, none, false, .returningToSpawn⟩

/-- `BehaviorManager.evaluateBehaviors`: evaluate the default behaviors in
    priority order (ground avoidance, ship collision avoidance, return to
    spawn) and return the first non-null decision with its behavior. -/
def evaluateBehaviors (ship : Ship) (otherShips : List Ship)
    (landPolygons : List LandPolygon) : Option (NavigationDecision × BehaviorKind) :=
  if !ship.collisionAvoidanceActive then none
  else
    match groundAvoidanceEvaluate ship otherShips landPolygons with
    | some d => some (d, .groundAvoidance)
    | none =>
      match shipCollisionAvoidanceEvaluate ship otherShips landPolygons with
      | some d => some (d, .shipCollisionAvoidance)
      | none =>
        match returnToSpawnEvaluate ship with
        | some d => some (d, .returnToSpawn)
        | none => none

/-- `BehaviorBasedCollisionAvoidance.avoidCollisions`: skip frozen or
    avoidance-disabled ships; otherwise apply the arbiter's decision, or
    clear previously held avoidance state when all behaviors abstain. -/
def avoidCollisions (ship : Ship) (otherShips : List Ship)
    (landPolygons : List LandPolygon) : Ship :=
  if ship.status = .disabled ∨ ship.status = .aground ∨ !ship.collisionAvoidanceActive then
    ship
  else
    match evaluateBehaviors ship otherShips landPolygons with
    | none =>
      if ship.collisionRisks.length > 0 ∨ ship.avoidingLand = true then
        let s1 := { ship with collisionRisks := [], avoidingLand := false }
        match s1.normalSpeed with
        | some ns => { s1 with demandedSpeed := some ns, normalSpeed := none }
        | none => s1
      else ship
    | some (decision, activeBehavior) =>
      let s1 :=
        match decision.demandedCourse with
        | some dc => { ship with demandedCourse := some dc }
        | none => ship
      let s2 :=
        if decision.storeNormalSpeed && s1.normalSpeed.isNone && s1.demandedSpeed.isSome then
          { s1 with normalSpeed := s1.demandedSpeed }
        else s1
      let s3 :=
        match decision.demandedSpeed with
        | some ds =>
          if s2.demandedSpeed.isNone ∨ (∃ cur, s2.demandedSpeed = some cur ∧ cur > ds) then
            { s2 with demandedSpeed := some ds }
          else s2
        | none => s2
      { s3 with
        avoidingLand := activeBehavior = .groundAvoidance
        avoidanceReason := some decision.reason }

/-- Model of JavaScript `array.slice(-n)` for a natural `n`: the last `n`
    elements, except that `n = 0` returns the whole array (`slice(-0)` is
    `slice(0)`). -/
def jsSliceNeg {α : Type} (l : List α) (n : ℕ) : List α :=
  if n = 0 then l else l.drop (l.length - n)

/-- The hard-coded `MAX_TRAIL_LENGTH` of `DefaultMovementStrategy`. -/
def MAX_TRAIL_LENGTH : ℕ := 100

/-- `DefaultMovementStrategy.updateMovement`: heading/turn-rate update,
    speed ramp, position advance along the new heading, trail append, and
    the two snap-to-demand checks. -/
def updateMovement (ship : Ship) (minutes : ℝ) (simulationTime : ℕ) : Ship :=
  if ship.status = .disabled ∨ ship.status = .aground then ship
  else
    let hr := calculateNewHeading ship.heading ship.turnRate ship.demandedCourse minutes
    let newSpeed := calculateNewSpeed ship.speed ship.demandedSpeed minutes
    let pos := calculateShipMovement ship.position.latitude ship.position.longitude
      newSpeed hr.1 minutes
    let s1 := { ship with
      heading := hr.1
      turnRate := hr.2
      speed := newSpeed
      position := ⟨pos.1, pos.2⟩
      trail := jsSliceNeg ship.trail (MAX_TRAIL_LENGTH - 1) ++
        [(⟨ship.position.latitude, ship.position.longitude, simulationTime, ship.heading,
          ship.speed, ship.demandedCourse, ship.demandedSpeed, ship.status,
          ship.avoidingLand⟩ : TrailPoint)] }
    let s2 :=
      match s1.demandedCourse with
      | some dc =>
        if |s1.heading - dc| < 0.1 ∧ |s1.turnRate| < 0.1 then
          { s1 with heading := dc, turnRate := 0, demandedCourse := none }
        else s1
      | none => s1
    match s2.demandedSpeed with
    | some ds =>
      if |s2.speed - ds| < 0.1 then { s2 with speed := ds, demandedSpeed := none }
      else s2
    | none => s2

/-- The avoidance pass of `SimulationEngine.updateSimulation`: every
    avoidance-enabled ship is run through the arbiter against the pre-tick
    snapshot of all other ships. -/
def avoidancePass (ships : List Ship) (landPolygons : List LandPolygon) : List Ship :=
  ships.map fun ship =>
    if !ship.collisionAvoidanceActive then ship
    else avoidCollisions ship (ships.filter fun other => other.id != ship.id) landPolygons

/-- `SimulationEngine.checkGrounding`: a non-frozen ship inside some land
    polygon becomes aground. -/
def checkGrounding (ships : List Ship) (landPolygons : List LandPolygon) : List Ship :=
  ships.map fun ship =>
    if ship.status = .disabled ∨ ship.status = .aground then ship
    else if landPolygons.any fun polygon =>
        isPointInPolygon (ship.position.longitude, ship.position.latitude) polygon then
      { ship with status := .aground }
    else ship

/-- Planar separation used by `checkShipCollisions` (NM). -/
def collisionSeparation (a b : Ship) : ℝ :=
  Real.sqrt (((a.position.latitude - b.position.latitude) * 60) ^ 2 +
    ((a.position.longitude - b.position.longitude) * 60 *
      cos (a.position.latitude * π / 180)) ^ 2)

/-- One inner-loop step of `checkShipCollisions` for the pair `(i, j)`:
    `shipI` is the stale read of index `i` taken at the start of the outer
    iteration, `otherShip` is read fresh from the current array. -/
def resolvePair (ships : List Ship) (i j : ℕ) (shipI : Ship) : List Ship :=
  match ships[j]? with
  | none => ships
  | some otherShip =>
    if otherShip.status = .disabled ∨ otherShip.status = .aground then ships
    else
      let shipLengthNm := shipI.dimensions.length / 1852
      let otherShipLengthNm := otherShip.dimensions.length / 1852
      if collisionSeparation shipI otherShip < (shipLengthNm + otherShipLengthNm) / 2 then
        if shipI.dimensions.length = otherShip.dimensions.length then
          (ships.set i { shipI with status := .disabled }).set j
            { otherShip with status := .disabled }
        else if shipI.dimensions.length < otherShip.dimensions.length then
          ships.set i { shipI with status := .disabled }
        else ships.set j { otherShip with status := .disabled }
      else ships

/-- One outer-loop iteration of `checkShipCollisions` at index `i`. -/
def collideOuterStep (ships : List Ship) (i : ℕ) : List Ship :=
  match ships[i]? with
  | none => ships
  | some shipI =>
    if shipI.status = .disabled ∨ shipI.status = .aground then ships
    else
      (List.range' (i + 1) (ships.length - (i + 1))).foldl
        (fun acc j => resolvePair acc i j shipI) ships

/-- `SimulationEngine.checkShipCollisions`: pairwise scan in index order;
    on a sub-threshold pair, equal lengths disable both ships, otherwise
    only the shorter one. -/
def checkShipCollisions (ships : List Ship) : List Ship :=
  (List.range ships.length).foldl collideOuterStep ships

/-- `SimulationEngine.limitTrailLength` with configuration
    `maxTrailLength`. -/
def limitTrailLength (maxTrailLength : ℕ) (ships : List Ship) : List Ship :=
  ships.map fun ship =>
    if ship.trail.length ≤ maxTrailLength then ship
    else { ship with trail := jsSliceNeg ship.trail maxTrailLength }

/-- `SimulationEngine.updateSimulation`: the five-pass tick (avoidance,
    grounding, ship collisions, movement, trail trim). -/
def updateSimulation (maxTrailLength : ℕ) (ships : List Ship)
    (landPolygons : List LandPolygon) (simulationTime : ℕ) (minutes : ℝ) : List Ship :=
  if ships.length = 0 then []
  else
    let pass1 := avoidancePass ships landPolygons
    let pass2 := checkGrounding pass1 landPolygons
    let pass3 := checkShipCollisions pass2
    let pass4 := pass3.map fun ship => updateMovement ship minutes simulationTime
    limitTrailLength maxTrailLength pass4

/-- Repeated ticks of the engine (fixed land set, tick size, and a fixed
    timestamp, which no claim observes). -/
def iterateSim (maxTrailLength : ℕ) (landPolygons : List LandPolygon) (minutes : ℝ) :
    ℕ → List Ship → List Ship
  | 0, ships => ships
  | Nat.succ n, ships =>
    iterateSim maxTrailLength landPolygons minutes n
      (updateSimulation maxTrailLength ships landPolygons 0 minutes)

/-! ### Helper lemmas -/

theorem toRadians_toDegrees (r : ℝ) : toRadians (toDegrees r) = r := by
  unfold toRadians toDegrees
  field_simp

theorem toDegrees_toRadians (d : ℝ) : toDegrees (toRadians d) = d := by
  unfold toRadians toDegrees
  field_simp

theorem toRadians_add (a b : ℝ) : toRadians (a + b) = toRadians a + toRadians b := by
  unfold toRadians; ring

theorem toRadians_sub (a b : ℝ) : toRadians (a - b) = toRadians a - toRadians b := by
  unfold toRadians; ring

theorem toRadians_zero : toRadians 0 = 0 := by unfold toRadians; ring

theorem toRadians_pi : toRadians 180 = π := by
  unfold toRadians; field_simp

theorem toDegrees_pi : toDegrees π = 180 := by
  unfold toDegrees; field_simp

theorem R_pos : (0 : ℝ) < R := by unfold R; norm_num

theorem jsMod_eq_sub_floor {a n : ℝ} (ha : 0 ≤ a) (hn : 0 < n) :
    jsMod a n = a - n * ⌊a / n⌋ := by
  unfold jsMod
  rw [if_pos (div_nonneg ha hn.le)]

theorem jsMod_nonneg {a n : ℝ} (ha : 0 ≤ a) (hn : 0 < n) : 0 ≤ jsMod a n := by
  rw [jsMod_eq_sub_floor ha hn]
  have h1 : (⌊a / n⌋ : ℝ) ≤ a / n := Int.floor_le _
  have h2 : n * (⌊a / n⌋ : ℝ) ≤ n * (a / n) := by
    exact mul_le_mul_of_nonneg_left h1 hn.le
  rw [mul_div_cancel₀ a hn.ne.symm] at h2
  linarith

theorem jsMod_lt {a n : ℝ} (ha : 0 ≤ a) (hn : 0 < n) : jsMod a n < n := by
  rw [jsMod_eq_sub_floor ha hn]
  have h1 : a / n < (⌊a / n⌋ : ℝ) + 1 := Int.lt_floor_add_one _
  have h2 : n * (a / n) < n * ((⌊a / n⌋ : ℝ) + 1) := by
    exact mul_lt_mul_of_pos_left h1 hn
  rw [mul_div_cancel₀ a hn.ne.symm] at h2
  nlinarith

theorem jsMod_eq_self {a n : ℝ} (ha : 0 ≤ a) (h : a < n) : jsMod a n = a := by
  have hn : 0 < n := lt_of_le_of_lt ha h
  rw [jsMod_eq_sub_floor ha hn]
  have : ⌊a / n⌋ = 0 := by
    rw [Int.floor_eq_zero_iff]
    constructor
    · exact div_nonneg ha hn.le
    · rw [div_lt_one hn]; exact h
  simp [this]

theorem mk_complex_eq (x y : ℝ) : (⟨x, y⟩ : ℂ) = x + y * Complex.I := by
  exact Complex.mk_eq_add_mul_I x y

theorem atan2_zero_of_nonneg {x : ℝ} (hx : 0 ≤ x) : atan2 0 x = 0 := by
  unfold atan2
  rw [show (⟨x, 0⟩ : ℂ) = (x : ℂ) from by
    rw [mk_complex_eq]; simp]
  exact Complex.arg_ofReal_of_nonneg hx

theorem atan2_zero_of_neg {x : ℝ} (hx : x < 0) : atan2 0 x = π := by
  unfold atan2
  rw [show (⟨x, 0⟩ : ℂ) = (x : ℂ) from by
    rw [mk_complex_eq]; simp]
  exact Complex.arg_ofReal_of_neg hx

theorem atan2_cos_sin {u : ℝ} (h1 : -π < u) (h2 : u ≤ π) : atan2 (sin u) (cos u) = u := by
  unfold atan2
  rw [mk_complex_eq]
  rw [show ((cos u : ℂ) + (sin u : ℂ) * Complex.I) = Complex.cos u + Complex.sin u * Complex.I from by
    simp [Complex.ofReal_cos, Complex.ofReal_sin]]
  exact Complex.arg_cos_add_sin_mul_I ⟨h1, h2⟩

/-- Bearing from a point to a point due north of it on the same meridian
    (latitude raised by `t` radians, `0 < t < π`) is 0°. -/
theorem calculateBearing_due_north (lat lon t : ℝ) (h0 : 0 < t) (h1 : t < π) :
    calculateBearing lat lon (lat + toDegrees t) lon = 0 := by
  unfold calculateBearing
  have hφ2 : toRadians (lat + toDegrees t) = toRadians lat + t := by
    rw [toRadians_add, toRadians_toDegrees]
  rw [sub_self, toRadians_zero, hφ2]
  dsimp only
  rw [Real.sin_zero, Real.cos_zero, zero_mul, mul_one]
  have e := Real.sin_sub (toRadians lat + t) (toRadians lat)
  rw [add_sub_cancel_left] at e
  have hx : cos (toRadians lat) * sin (toRadians lat + t) -
      sin (toRadians lat) * cos (toRadians lat + t) = sin t := by
    linear_combination -e
  rw [hx]
  have hpos : 0 < sin t := Real.sin_pos_of_pos_of_lt_pi h0 h1
  rw [atan2_zero_of_nonneg hpos.le]
  norm_num [toDegrees]

/-- Bearing from a point to a point due south of it on the same meridian
    (latitude lowered by `t` radians, `0 < t < π`) is 180°. -/
theorem calculateBearing_due_south (lat lon t : ℝ) (h0 : 0 < t) (h1 : t < π) :
    calculateBearing (lat + toDegrees t) lon lat lon = 180 := by
  unfold calculateBearing
  have hφ1 : toRadians (lat + toDegrees t) = toRadians lat + t := by
    rw [toRadians_add, toRadians_toDegrees]
  rw [sub_self, toRadians_zero, hφ1]
  dsimp only
  rw [Real.sin_zero, Real.cos_zero, zero_mul, mul_one]
  have e := Real.sin_sub (toRadians lat) (toRadians lat + t)
  rw [sub_add_cancel_left, Real.sin_neg] at e
  have hx : cos (toRadians lat + t) * sin (toRadians lat) -
      sin (toRadians lat + t) * cos (toRadians lat) = -sin t := by
    linear_combination -e
  rw [hx]
  have hpos : 0 < sin t := Real.sin_pos_of_pos_of_lt_pi h0 h1
  rw [atan2_zero_of_neg (by linarith)]
  rw [toDegrees_pi]
  norm_num

/-- Haversine distance between two points on the same meridian separated
    by `t` radians of latitude (`0 ≤ t ≤ π`) is `R * t`. -/
theorem calculateDistance_due_north (lat lon t : ℝ) (h0 : 0 ≤ t) (h1 : t ≤ π) :
    calculateDistance lat lon (lat + toDegrees t) lon = R * t := by
  unfold calculateDistance
  have hΔφ : toRadians (lat + toDegrees t - lat) = t := by
    rw [show lat + toDegrees t - lat = toDegrees t by ring, toRadians_toDegrees]
  rw [sub_self, toRadians_zero, hΔφ]
  dsimp only
  rw [show (0 : ℝ) / 2 = 0 by norm_num, Real.sin_zero, mul_zero, mul_zero, add_zero, ← sq]
  have hsin_nonneg : 0 ≤ sin (t / 2) := by
    apply Real.sin_nonneg_of_nonneg_of_le_pi <;> linarith
  have hcos_nonneg : 0 ≤ cos (t / 2) := by
    apply Real.cos_nonneg_of_mem_Icc
    constructor
    · linarith [Real.pi_pos]
    · linarith
  have h1' : Real.sqrt (sin (t / 2) ^ 2) = sin (t / 2) := Real.sqrt_sq hsin_nonneg
  have h2' : Real.sqrt (1 - sin (t / 2) ^ 2) = cos (t / 2) := by
    rw [show (1 : ℝ) - sin (t / 2) ^ 2 = cos (t / 2) ^ 2 from by
      have := Real.sin_sq_add_cos_sq (t / 2); linarith]
    exact Real.sqrt_sq hcos_nonneg
  rw [h1', h2']
  rw [atan2_cos_sin (by linarith [Real.pi_pos]) (by linarith [Real.pi_pos])]
  ring

/-- Same-meridian distance, measured southward. -/
theorem calculateDistance_due_south (lat lon t : ℝ) (h0 : 0 ≤ t) (h1 : t ≤ π) :
    calculateDistance (lat + toDegrees t) lon lat lon = R * t := by
  unfold calculateDistance
  have hΔφ : toRadians (lat - (lat + toDegrees t)) = -t := by
    rw [show lat - (lat + toDegrees t) = -toDegrees t by ring]
    rw [show -toDegrees t = toDegrees (-t) by unfold toDegrees; ring]
    rw [toRadians_toDegrees]
  rw [sub_self, toRadians_zero, hΔφ]
  dsimp only
  rw [show (0 : ℝ) / 2 = 0 by norm_num, Real.sin_zero, mul_zero, mul_zero, add_zero]
  rw [show (-t / 2 : ℝ) = -(t / 2) by ring, Real.sin_neg]
  rw [show -sin (t / 2) * -sin (t / 2) = sin (t / 2) ^ 2 by ring]
  have hsin_nonneg : 0 ≤ sin (t / 2) := by
    apply Real.sin_nonneg_of_nonneg_of_le_pi <;> linarith
  have hcos_nonneg : 0 ≤ cos (t / 2) := by
    apply Real.cos_nonneg_of_mem_Icc
    constructor
    · linarith [Real.pi_pos]
    · linarith
  have h1' : Real.sqrt (sin (t / 2) ^ 2) = sin (t / 2) := Real.sqrt_sq hsin_nonneg
  have h2' : Real.sqrt (1 - sin (t / 2) ^ 2) = cos (t / 2) := by
    rw [show (1 : ℝ) - sin (t / 2) ^ 2 = cos (t / 2) ^ 2 from by
      have := Real.sin_sq_add_cos_sq (t / 2); linarith]
    exact Real.sqrt_sq hcos_nonneg
  rw [h1', h2']
  rw [atan2_cos_sin (by linarith [Real.pi_pos]) (by linarith [Real.pi_pos])]
  ring

/-- The latitude increment (in degrees) that puts two points on the same
    meridian exactly 3 NM apart. -/
def dLat3 : ℝ := toDegrees (3 / R)

theorem threeR_pos : 0 < 3 / R := by
  apply div_pos <;> [norm_num; exact R_pos]

theorem threeR_lt_pi : 3 / R < π := by
  have h3 : (3.141592 : ℝ) < π := by
    have := Real.pi_gt_d6
    linarith
  have : 3 / R < 1 := by
    rw [div_lt_one R_pos]
    unfold R; norm_num
  linarith

theorem bearing_AB : calculateBearing 50 (-1) (50 + dLat3) (-1) = 0 := by
  unfold dLat3
  exact calculateBearing_due_north 50 (-1) (3 / R) threeR_pos threeR_lt_pi

theorem bearing_BA : calculateBearing (50 + dLat3) (-1) 50 (-1) = 180 := by
  unfold dLat3
  exact calculateBearing_due_south 50 (-1) (3 / R) threeR_pos threeR_lt_pi

theorem distance_AB : calculateDistance 50 (-1) (50 + dLat3) (-1) = 3 := by
  unfold dLat3
  rw [calculateDistance_due_north 50 (-1) (3 / R) threeR_pos.le threeR_lt_pi.le]
  rw [mul_div_assoc']
  exact mul_div_cancel_left₀ 3 R_pos.ne.symm

theorem distance_BA : calculateDistance (50 + dLat3) (-1) 50 (-1) = 3 := by
  unfold dLat3
  rw [calculateDistance_due_south 50 (-1) (3 / R) threeR_pos.le threeR_lt_pi.le]
  rw [mul_div_assoc']
  exact mul_div_cancel_left₀ 3 R_pos.ne.symm

/-- Relative speed the code computes for a contact dead ahead on a
    reciprocal (closing) course: `+2·speed`, a positive number. -/
theorem relSpeed_head_on : riskRelativeSpeed 0 10 0 180 10 = 20 := by
  unfold riskRelativeSpeed
  rw [show |(0 : ℝ) - 0| = 0 by norm_num, show |(0 : ℝ) - 180| = 180 by norm_num]
  rw [toRadians_zero, toRadians_pi, Real.cos_zero, Real.cos_pi]
  norm_num

theorem relSpeed_head_on_south : riskRelativeSpeed 180 10 180 0 10 = 20 := by
  unfold riskRelativeSpeed
  rw [show |(180 : ℝ) - 180| = 0 by norm_num, show |(180 : ℝ) - 0| = 180 by norm_num]
  rw [toRadians_zero, toRadians_pi, Real.cos_zero, Real.cos_pi]
  norm_num

/-! ### Claim theorems -/

/-- C1: the spec claims that for two vessels 3 NM apart on reciprocal
    headings (000°/180°), each moving toward the other, `findCollisionRisks`
    returns a non-empty list for each vessel with every entry having
    `relativeSpeed < 0`, and the empty list for the pair moving apart.
    The code disagrees on the approaching half: the relative speed it
    computes for the closing pair is `+20` knots (positive when closing,
    contradicting the code's own `negative means closing` comment and its
    `Converging` filter comment), so the `relativeSpeed < 0` filter rejects
    the approaching contact and both vessels get the empty list.  This
    theorem evaluates the code at the failing input: the two vessels are
    exactly 3 NM apart, the computed relative speed of the approaching
    contact is `+20`, both approaching vessels receive `[]`, and the
    moving-apart configuration also receives `[]`. -/
theorem C1_reciprocal_risks_empty :
    calculateDistance 50 (-1) (50 + dLat3) (-1) = 3 ∧
    riskRelativeSpeed 0 10 (calculateBearing 50 (-1) (50 + dLat3) (-1)) 180 10 = 20 ∧
    findCollisionRisks 1 50 (-1) 0 10 [⟨2, 50 + dLat3, -1, 180, 10⟩] = [] ∧
    findCollisionRisks 2 (50 + dLat3) (-1) 180 10 [⟨1, 50, -1, 0, 10⟩] = [] ∧
    findCollisionRisks 1 50 (-1) 180 10 [⟨2, 50 + dLat3, -1, 0, 10⟩] = [] ∧
    findCollisionRisks 2 (50 + dLat3) (-1) 0 10 [⟨1, 50, -1, 180, 10⟩] = [] := by
  have hrsA : riskRelativeSpeed 0 10 (calculateBearing 50 (-1) (50 + dLat3) (-1)) 180 10 = 20 := by
    rw [bearing_AB]; exact relSpeed_head_on
  refine ⟨distance_AB, hrsA, ?_, ?_, ?_, ?_⟩
  · unfold findCollisionRisks
    simp only [List.filter_cons, List.filter_nil, List.map_cons, List.map_nil]
    rw [if_pos (by norm_num)]
    simp only [List.map_cons, List.map_nil, List.filter_cons, List.filter_nil]
    rw [if_neg]
    intro h
    rw [Bool.and_eq_true, Bool.and_eq_true] at h
    have := of_decide_eq_true h.2
    rw [hrsA] at this
    norm_num at this
  · unfold findCollisionRisks
    simp only [List.filter_cons, List.filter_nil, List.map_cons, List.map_nil]
    rw [if_pos (by norm_num)]
    simp only [List.map_cons, List.map_nil, List.filter_cons, List.filter_nil]
    rw [if_neg]
    intro h
    rw [Bool.and_eq_true, Bool.and_eq_true] at h
    have := of_decide_eq_true h.2
    rw [bearing_BA, relSpeed_head_on_south] at this
    norm_num at this
  · unfold findCollisionRisks
    simp only [List.filter_cons, List.filter_nil, List.map_cons, List.map_nil]
    rw [if_pos (by norm_num)]
    simp only [List.map_cons, List.map_nil, List.filter_cons, List.filter_nil]
    rw [if_neg]
    intro h
    rw [Bool.and_eq_true, Bool.and_eq_true] at h
    have := of_decide_eq_true h.1.2
    rw [bearing_AB] at this
    norm_num at this
  · unfold findCollisionRisks
    simp only [List.filter_cons, List.filter_nil, List.map_cons, List.map_nil]
    rw [if_pos (by norm_num)]
    simp only [List.map_cons, List.map_nil, List.filter_cons, List.filter_nil]
    rw [if_neg]
    intro h
    rw [Bool.and_eq_true, Bool.and_eq_true] at h
    have := of_decide_eq_true h.1.2
    rw [bearing_BA] at this
    norm_num at this

/-- C10: `findCollisionRisks` compares the contact's bearing to the own
    heading as the plain `|bearing − heading|` with no wrap through 360°.
    Witnessed here: own heading 350°, contact dead ahead across due north
    (bearing 0°) at 3 NM and closing (its computed relative speed is
    negative), with minimal angular deviation `min 350 (360−350) = 10° ≤
    90°, yet the returned risk list is empty because `|0 − 350| = 350 >
    90`. -/
theorem C10_bearing_wrap_exclusion :
    calculateBearing 50 (-1) (50 + dLat3) (-1) = 0 ∧
    min |(0 : ℝ) - 350| (360 - |(0 : ℝ) - 350|) = 10 ∧
    calculateDistance 50 (-1) (50 + dLat3) (-1) = 3 ∧
    riskRelativeSpeed 350 1 (calculateBearing 50 (-1) (50 + dLat3) (-1)) 0 2 < 0 ∧
    findCollisionRisks 1 50 (-1) 350 1 [⟨2, 50 + dLat3, -1, 0, 2⟩] = [] := by
  have hrs : riskRelativeSpeed 350 1 (calculateBearing 50 (-1) (50 + dLat3) (-1)) 0 2 < 0 := by
    rw [bearing_AB]
    unfold riskRelativeSpeed
    rw [show |(0 : ℝ) - 350| = 350 by norm_num, show |(0 : ℝ) - 0| = 0 by norm_num]
    rw [toRadians_zero, Real.cos_zero]
    have := Real.cos_le_one (toRadians 350)
    nlinarith
  refine ⟨bearing_AB, by norm_num, distance_AB, hrs, ?_⟩
  unfold findCollisionRisks
  simp only [List.filter_cons, List.filter_nil, List.map_cons, List.map_nil]
  rw [if_pos (by norm_num)]
  simp only [List.map_cons, List.map_nil, List.filter_cons, List.filter_nil]
  rw [if_neg]
  intro h
  rw [Bool.and_eq_true, Bool.and_eq_true] at h
  have := of_decide_eq_true h.1.2
  rw [bearing_AB] at this
  norm_num at this

/-- C9: a demanded value of exactly 0 is treated as no demand by the motion
    integrator: `calculateNewHeading` with `demandedCourse = 0` takes the
    same turn-rate-decay branch as an absent demanded course (it does not
    steer toward due north), and `calculateNewSpeed` with
    `demandedSpeed = 0` returns the current speed unchanged, so a demand of
    heading 0° or speed 0 knots is never acted on. -/
theorem C9_zero_demand_falsy :
    (∀ h tr m : ℝ, calculateNewHeading h tr (some 0) m = calculateNewHeading h tr none m) ∧
    (∀ s m : ℝ, calculateNewSpeed s (some 0) m = s) := by
  constructor
  · intro h tr m
    simp [calculateNewHeading]
  · intro s m
    simp [calculateNewSpeed]

/-- The `calculateNewSpeed` ramp alone changes the speed by at most
    `1·Δt` knots, for every current speed, demanded speed, and nonnegative
    tick size (the snap step of the full motion update can exceed this;
    see the C7 theorems). -/
theorem calculateNewSpeed_ramp_bound (currentSpeed : ℝ) (demandedSpeed : Option ℝ) (minutes : ℝ)
    (hm : 0 ≤ minutes) :
    |calculateNewSpeed currentSpeed demandedSpeed minutes - currentSpeed| ≤ 1 * minutes := by
  rcases demandedSpeed with _ | ds
  · simp only [calculateNewSpeed]
    simpa using hm
  · simp only [calculateNewSpeed]
    by_cases h0 : ds = 0
    · rw [if_pos h0]; simpa using hm
    · rw [if_neg h0]
      by_cases hle : |ds - currentSpeed| ≤ 1 * minutes
      · rw [if_pos hle]
        exact hle
      · rw [if_neg hle]
        rw [show currentSpeed + Real.sign (ds - currentSpeed) * (1 * minutes) - currentSpeed =
          Real.sign (ds - currentSpeed) * (1 * minutes) by ring]
        rw [abs_mul]
        have hs : |Real.sign (ds - currentSpeed)| ≤ 1 := by
          rcases lt_trichotomy (ds - currentSpeed) 0 with hlt | heq | hgt
          · rw [Real.sign_of_neg hlt]; norm_num
          · rw [heq, Real.sign_zero]; norm_num
          · rw [Real.sign_of_pos hgt]; norm_num
        have h1m : |1 * minutes| = 1 * minutes := abs_of_nonneg (by linarith)
        rw [h1m]
        nlinarith [abs_nonneg (1 * minutes)]

/-- What the CPA computation actually does: it returns absence exactly when
    `|a| < 1e-10` (no relative motion), the discriminant is negative, the
    time of closest approach is negative, or `cpaDistance` — the own
    ship's run from its current position to its own projected position at
    that time, not the separation of the pair — exceeds 0.5 NM; otherwise
    it returns the projected point together with the time (minutes).
    Absence is the ordinary `none` value of the `Option` result. -/
theorem calculateCollisionPoint_none_iff (lat1 lon1 hdg1 sp1 lat2 lon2 hdg2 sp2 : ℝ) :
    (calculateCollisionPoint lat1 lon1 hdg1 sp1 lat2 lon2 hdg2 sp2 = none ↔
      |cpaA hdg1 sp1 hdg2 sp2| < 1e-10 ∨
        cpaB lat1 lon1 hdg1 sp1 lat2 lon2 hdg2 sp2 *
              cpaB lat1 lon1 hdg1 sp1 lat2 lon2 hdg2 sp2 -
            4 * cpaA hdg1 sp1 hdg2 sp2 * cpaC lat1 lon1 lat2 lon2 < 0 ∨
        cpaT lat1 lon1 hdg1 sp1 lat2 lon2 hdg2 sp2 < 0 ∨
        cpaDistance lat1 lon1 hdg1 sp1 lat2 lon2 hdg2 sp2 > 0.5) ∧
    (¬(|cpaA hdg1 sp1 hdg2 sp2| < 1e-10 ∨
        cpaB lat1 lon1 hdg1 sp1 lat2 lon2 hdg2 sp2 *
              cpaB lat1 lon1 hdg1 sp1 lat2 lon2 hdg2 sp2 -
            4 * cpaA hdg1 sp1 hdg2 sp2 * cpaC lat1 lon1 lat2 lon2 < 0 ∨
        cpaT lat1 lon1 hdg1 sp1 lat2 lon2 hdg2 sp2 < 0 ∨
        cpaDistance lat1 lon1 hdg1 sp1 lat2 lon2 hdg2 sp2 > 0.5) →
      calculateCollisionPoint lat1 lon1 hdg1 sp1 lat2 lon2 hdg2 sp2 =
        some ⟨cpaLat lat1 lon1 hdg1 sp1 lat2 lon2 hdg2 sp2,
          cpaLon lat1 lon1 hdg1 sp1 lat2 lon2 hdg2 sp2,
          cpaT lat1 lon1 hdg1 sp1 lat2 lon2 hdg2 sp2⟩) := by
  unfold calculateCollisionPoint
  dsimp only
  split_ifs with hA hD hT hM
  · simp [hA]
  · simp [hA, hD]
  · simp [hA, hD, hT]
  · simp [hA, hD, hT, hM]
  · simp [hA, hD, hT, hM]

/-- C2 counterexample: with no other ship at all the current heading's cone
    is trivially clear, yet `findClearHeading` returns `none` instead of
    the current heading (the claimed behavior), because the function first
    returns `none` whenever no other ship is within 4 NM. -/
theorem C2_clear_cone_returns_none :
    isConeBlocked 50 (-1) 45 10 [] 2 15 = false ∧
    findClearHeading 50 (-1) 45 10 [] = none := by
  constructor
  · simp [isConeBlocked]
  · simp [findClearHeading]

/-- The starboard candidate heading scanned at loop counter `k`
    (`turn = 10·k + 10` degrees): `(currentHeading + turn) % 360`. -/
def starboardCandidate (currentHeading : ℝ) (k : ℕ) : ℝ :=
  jsMod (currentHeading + ((10 * k + 10 : ℕ) : ℝ)) 360

theorem scanStarboard_eq_find (lat lon h s : ℝ) (others : List OtherShip) :
    ∀ n j : ℕ, j + n = 18 →
      scanStarboard lat lon h s others (10 * j + 10) =
        ((List.range n).map fun k => starboardCandidate h (j + k)).find?
          (fun c => !isConeBlocked lat lon c s others 2 15) := by
  intro n
  induction n with
  | zero =>
    intro j hj
    have hj' : j = 18 := by omega
    subst hj'
    rw [scanStarboard]
    rw [dif_neg (by omega)]
    simp
  | succ n ih =>
    intro j hj
    rw [scanStarboard]
    rw [dif_pos (by omega)]
    dsimp only
    rw [List.range_succ_eq_map, List.map_cons, List.map_map]
    have hcand : starboardCandidate h (j + 0) = jsMod (h + ((10 * j + 10 : ℕ) : ℝ)) 360 := by
      simp [starboardCandidate]
    rcases Bool.eq_false_or_eq_true
        (isConeBlocked lat lon (jsMod (h + ((10 * j + 10 : ℕ) : ℝ)) 360) s others 2 15) with
      hb | hb
    · rw [if_pos hb]
      rw [List.find?_cons_of_neg _ (by rw [hcand, hb]; simp)]
      rw [show 10 * j + 10 + 10 = 10 * (j + 1) + 10 by ring]
      rw [ih (j + 1) (by omega)]
      congr 1
      apply List.map_congr_left
      intro k _
      simp only [Function.comp_apply]
      apply congrArg
      omega
    · rw [if_neg (by rw [hb]; simp)]
      rw [List.find?_cons_of_pos _ (by rw [hcand, hb]; rfl)]
      rw [hcand]

/-- C2 (amended): `findClearHeading` first returns `none` when no other
    ship is within 4 NM (even when the current cone is clear); otherwise it
    returns the current heading when its 2 NM/15° cone is unblocked, and
    otherwise the first unblocked heading among the 18 starboard candidates
    `(currentHeading + 10k)%360`, `k = 1..18` — there is no port-side scan,
    and land polygons are not consulted. -/
theorem C2_amended_starboard_only (lat lon h s : ℝ) (others : List OtherShip) :
    findClearHeading lat lon h s others =
      if others.any fun o =>
          decide (calculateDistance lat lon o.latitude o.longitude < 4) then
        if isConeBlocked lat lon h s others 2 15 then
          ((List.range 18).map fun k => starboardCandidate h k).find?
            (fun c => !isConeBlocked lat lon c s others 2 15)
        else some h
      else none := by
  unfold findClearHeading
  dsimp only
  have hany : ∀ l : List OtherShip,
      ((l.map fun other =>
        (calculateBearing lat lon other.latitude other.longitude,
          calculateDistance lat lon other.latitude other.longitude)).any
        fun b => decide (b.2 < 4)) =
      l.any fun o => decide (calculateDistance lat lon o.latitude o.longitude < 4) := by
    intro l
    induction l with
    | nil => rfl
    | cons o os ih => simp only [List.map_cons, List.any_cons, ih]
  rw [hany]
  have htrue : (true : Bool) = true := rfl
  have hfalse : ¬((false : Bool) = true) := by simp
  have hnottrue : ¬((!(true : Bool)) = true) := by simp
  have hnotfalse : (!(false : Bool)) = true := rfl
  rcases Bool.eq_false_or_eq_true
      (others.any fun o => decide (calculateDistance lat lon o.latitude o.longitude < 4)) with
    h4 | h4
  · rw [h4]
    rcases Bool.eq_false_or_eq_true (isConeBlocked lat lon h s others 2 15) with hb | hb
    · rw [hb]
      rw [if_neg hnottrue, if_neg hnottrue, if_pos htrue, if_pos htrue]
      have hmap : (List.range 18).map (fun k => starboardCandidate h (0 + k)) =
          (List.range 18).map fun k => starboardCandidate h k := by
        apply List.map_congr_left
        intro k _
        apply congrArg
        omega
      have := scanStarboard_eq_find lat lon h s others 18 0 (by omega)
      rw [show 10 * 0 + 10 = 10 from by omega, hmap] at this
      rw [this]
    · rw [hb]
      rw [if_neg hnottrue, if_pos hnotfalse, if_pos htrue, if_neg hfalse]
  · rw [h4]
    rw [if_pos hnotfalse, if_neg hfalse]

/-- An underway test vessel on the meridian −1° with the given id,
    latitude and length (metres); all other fields neutral. -/
def mkShip (i : ℕ) (lat len : ℝ) : Ship where
  id := i
  position := ⟨lat, -1⟩
  heading := 0
  demandedCourse := none
  turnRate := 0
  speed := 10
  demandedSpeed := none
  normalSpeed := none
  dimensions := ⟨len, 20, 5⟩
  status := .underway
  collisionAvoidanceActive := true
  collisionRisks := []
  avoidingLand := false
  avoidanceReason := none
  trail := []

theorem mkShip_status (i : ℕ) (lat len : ℝ) : (mkShip i lat len).status = .underway := rfl

/-- Planar separation of two test vessels on the shared meridian is the
    absolute latitude difference scaled by 60. -/
theorem collisionSeparation_mkShip (i j : ℕ) (lat1 lat2 len1 len2 : ℝ) :
    collisionSeparation (mkShip i lat1 len1) (mkShip j lat2 len2) =
      Real.sqrt (((lat1 - lat2) * 60) ^ 2) := by
  unfold collisionSeparation mkShip
  dsimp only
  norm_num

/-- Reduction of one outer collision step over a two-vessel fleet with an
    active first vessel. -/
theorem collideOuterStep_pair (s1 s2 : Ship)
    (h1 : ¬(s1.status = .disabled ∨ s1.status = .aground)) :
    collideOuterStep [s1, s2] 0 = resolvePair [s1, s2] 0 1 s1 := by
  unfold collideOuterStep
  simp only [List.getElem?_cons_zero]
  rw [if_neg h1]
  rw [show ([s1, s2] : List Ship).length - (0 + 1) = 1 from by simp]
  rw [show List.range' (0 + 1) 1 = [1] from rfl]
  rw [List.foldl_cons, List.foldl_nil]

/-- Reduction of the inner collision check for the active pair `(0, 1)` of
    a two-vessel fleet that is inside the collision threshold. -/
theorem resolvePair_active_close (s1 s2 : Ship)
    (h2 : ¬(s2.status = .disabled ∨ s2.status = .aground))
    (hclose : collisionSeparation s1 s2 <
      (s1.dimensions.length / 1852 + s2.dimensions.length / 1852) / 2) :
    resolvePair [s1, s2] 0 1 s1 =
      if s1.dimensions.length = s2.dimensions.length then
        [{ s1 with status := .disabled }, { s2 with status := .disabled }]
      else if s1.dimensions.length < s2.dimensions.length then
        [{ s1 with status := .disabled }, s2]
      else [s1, { s2 with status := .disabled }] := by
  unfold resolvePair
  simp only [List.getElem?_cons_succ, List.getElem?_cons_zero]
  rw [if_neg h2]
  rw [if_pos hclose]
  by_cases heq : s1.dimensions.length = s2.dimensions.length
  · rw [if_pos heq, if_pos heq]
    rfl
  · rw [if_neg heq, if_neg heq]
    by_cases hlt : s1.dimensions.length < s2.dimensions.length
    · rw [if_pos hlt, if_pos hlt]
      rfl
    · rw [if_neg hlt, if_neg hlt]
      rfl

/-- C3 (amended): the per-pair rule as claimed holds for the vessel
    statuses current at the time the pair is examined; equivalently,
    unconditionally for a fleet of exactly the two vessels.  For two active
    vessels closer than `(length₁ + length₂)/2` NM: equal lengths disable
    both, unequal lengths disable only the shorter one, and the longer one
    is unchanged. -/
theorem C3_amended_two_vessel (s1 s2 : Ship)
    (h1 : ¬(s1.status = .disabled ∨ s1.status = .aground))
    (h2 : ¬(s2.status = .disabled ∨ s2.status = .aground))
    (hclose : collisionSeparation s1 s2 <
      (s1.dimensions.length / 1852 + s2.dimensions.length / 1852) / 2) :
    checkShipCollisions [s1, s2] =
      if s1.dimensions.length = s2.dimensions.length then
        [{ s1 with status := .disabled }, { s2 with status := .disabled }]
      else if s1.dimensions.length < s2.dimensions.length then
        [{ s1 with status := .disabled }, s2]
      else [s1, { s2 with status := .disabled }] := by
  unfold checkShipCollisions
  rw [show ([s1, s2] : List Ship).length = 2 from by simp]
  rw [show List.range 2 = [0, 1] from rfl]
  rw [List.foldl_cons, List.foldl_cons, List.foldl_nil]
  rw [collideOuterStep_pair s1 s2 h1, resolvePair_active_close s1 s2 h2 hclose]
  by_cases heq : s1.dimensions.length = s2.dimensions.length
  · rw [if_pos heq]
    unfold collideOuterStep
    simp only [List.getElem?_cons_succ, List.getElem?_cons_zero]
    simp
  · rw [if_neg heq]
    by_cases hlt : s1.dimensions.length < s2.dimensions.length
    · rw [if_pos hlt]
      unfold collideOuterStep
      simp only [List.getElem?_cons_succ, List.getElem?_cons_zero]
      rw [if_neg h2]
      rw [show ([{ s1 with status := ShipStatus.disabled }, s2] : List Ship).length - (1 + 1) = 0
        from by simp]
      rw [show List.range' (1 + 1) 0 = [] from rfl]
      rw [List.foldl_nil]
    · rw [if_neg hlt]
      unfold collideOuterStep
      simp only [List.getElem?_cons_succ, List.getElem?_cons_zero]
      simp

/-- Witness for the amended C3 at a concrete input: two equal-length
    (1852 m) underway vessels 0.6 NM apart are both disabled. -/
theorem C3_amended_two_vessel_witness :
    checkShipCollisions [mkShip 1 0 1852, mkShip 2 0.01 1852] =
      [{ mkShip 1 0 1852 with status := .disabled },
        { mkShip 2 0.01 1852 with status := .disabled }] := by
  have h1 : ¬((mkShip 1 0 1852).status = .disabled ∨ (mkShip 1 0 1852).status = .aground) := by
    rw [mkShip_status]
    simp
  have h2 : ¬((mkShip 2 0.01 1852).status = .disabled ∨ (mkShip 2 0.01 1852).status = .aground) := by
    rw [mkShip_status]
    simp
  have hclose : collisionSeparation (mkShip 1 0 1852) (mkShip 2 0.01 1852) <
      ((mkShip 1 0 1852).dimensions.length / 1852 +
        (mkShip 2 0.01 1852).dimensions.length / 1852) / 2 := by
    rw [collisionSeparation_mkShip]
    rw [show ((mkShip 1 0 1852).dimensions.length : ℝ) = 1852 from rfl]
    rw [show ((mkShip 2 0.01 1852).dimensions.length : ℝ) = 1852 from rfl]
    rw [Real.sqrt_lt' (by norm_num)]
    norm_num
  have := C3_amended_two_vessel (mkShip 1 0 1852) (mkShip 2 0.01 1852) h1 h2 hclose
  rw [if_pos (show (mkShip 1 0 1852).dimensions.length =
    (mkShip 2 0.01 1852).dimensions.length from rfl)] at this
  exact this

/-- C3 counterexample: a three-vessel cascade.  Vessel 1 (5556 m, lat 0°)
    and vessel 2 (3704 m, lat 0.03°) collide first and disable vessel 2;
    when the pair (2, 3) is examined, vessel 2 is already disabled, so the
    pair is skipped and vessel 3 (1852 m, lat 0.05°) stays underway — even
    though vessels 2 and 3 were both active before the pass, are separated
    by 1.2 NM (below their 1.5 NM threshold), and vessel 3 is the shorter
    one, which the claim says must become disabled. -/
theorem C3_cascade_counterexample :
    (mkShip 2 0.03 3704).status = .underway ∧
    (mkShip 3 0.05 1852).status = .underway ∧
    collisionSeparation (mkShip 2 0.03 3704) (mkShip 3 0.05 1852) <
      ((mkShip 2 0.03 3704).dimensions.length / 1852 +
        (mkShip 3 0.05 1852).dimensions.length / 1852) / 2 ∧
    (mkShip 3 0.05 1852).dimensions.length < (mkShip 2 0.03 3704).dimensions.length ∧
    (checkShipCollisions [mkShip 1 0 5556, mkShip 2 0.03 3704, mkShip 3 0.05 1852]).map
      Ship.status = [.underway, .disabled, .underway] := by
  have hAB : collisionSeparation (mkShip 1 0 5556) (mkShip 2 0.03 3704) <
      ((mkShip 1 0 5556).dimensions.length / 1852 +
        (mkShip 2 0.03 3704).dimensions.length / 1852) / 2 := by
    rw [collisionSeparation_mkShip,
      show ((mkShip 1 0 5556).dimensions.length : ℝ) = 5556 from rfl,
      show ((mkShip 2 0.03 3704).dimensions.length : ℝ) = 3704 from rfl,
      Real.sqrt_lt' (by norm_num)]
    norm_num
  have hAC : ¬(collisionSeparation (mkShip 1 0 5556) (mkShip 3 0.05 1852) <
      ((mkShip 1 0 5556).dimensions.length / 1852 +
        (mkShip 3 0.05 1852).dimensions.length / 1852) / 2) := by
    rw [collisionSeparation_mkShip,
      show ((mkShip 1 0 5556).dimensions.length : ℝ) = 5556 from rfl,
      show ((mkShip 3 0.05 1852).dimensions.length : ℝ) = 1852 from rfl,
      not_lt, Real.le_sqrt (by norm_num) (by norm_num)]
    norm_num
  have e0 : collideOuterStep
      [mkShip 1 0 5556, mkShip 2 0.03 3704, mkShip 3 0.05 1852] 0 =
      [mkShip 1 0 5556, { mkShip 2 0.03 3704 with status := .disabled },
        mkShip 3 0.05 1852] := by
    unfold collideOuterStep
    simp only [List.getElem?_cons_zero]
    rw [if_neg (by rw [mkShip_status]; simp)]
    rw [show ([mkShip 1 0 5556, mkShip 2 0.03 3704, mkShip 3 0.05 1852] :
      List Ship).length - (0 + 1) = 2 from by simp]
    rw [show List.range' (0 + 1) 2 = [1, 2] from rfl]
    simp only [List.foldl_cons, List.foldl_nil]
    have r1 : resolvePair [mkShip 1 0 5556, mkShip 2 0.03 3704, mkShip 3 0.05 1852]
        0 1 (mkShip 1 0 5556) =
        [mkShip 1 0 5556, { mkShip 2 0.03 3704 with status := .disabled },
          mkShip 3 0.05 1852] := by
      unfold resolvePair
      simp only [List.getElem?_cons_succ, List.getElem?_cons_zero]
      rw [if_neg (by rw [mkShip_status]; simp)]
      rw [if_pos hAB]
      rw [if_neg (show ¬((mkShip 1 0 5556).dimensions.length =
        (mkShip 2 0.03 3704).dimensions.length) from by norm_num [mkShip])]
      rw [if_neg (show ¬((mkShip 1 0 5556).dimensions.length <
        (mkShip 2 0.03 3704).dimensions.length) from by norm_num [mkShip])]
      rfl
    rw [r1]
    unfold resolvePair
    simp only [List.getElem?_cons_succ, List.getElem?_cons_zero]
    rw [if_neg (by rw [mkShip_status]; simp)]
    rw [if_neg hAC]
  have e1 : collideOuterStep
      [mkShip 1 0 5556, { mkShip 2 0.03 3704 with status := .disabled },
        mkShip 3 0.05 1852] 1 =
      [mkShip 1 0 5556, { mkShip 2 0.03 3704 with status := .disabled },
        mkShip 3 0.05 1852] := by
    unfold collideOuterStep
    simp only [List.getElem?_cons_succ, List.getElem?_cons_zero]
    rw [if_pos (Or.inl trivial)]
  have e2 : collideOuterStep
      [mkShip 1 0 5556, { mkShip 2 0.03 3704 with status := .disabled },
        mkShip 3 0.05 1852] 2 =
      [mkShip 1 0 5556, { mkShip 2 0.03 3704 with status := .disabled },
        mkShip 3 0.05 1852] := by
    unfold collideOuterStep
    simp only [List.getElem?_cons_succ, List.getElem?_cons_zero]
    rw [if_neg (by rw [mkShip_status]; simp)]
    rw [show ([mkShip 1 0 5556, { mkShip 2 0.03 3704 with status := ShipStatus.disabled },
      mkShip 3 0.05 1852] : List Ship).length - (2 + 1) = 0 from by simp]
    rw [show List.range' (2 + 1) 0 = [] from rfl]
    rw [List.foldl_nil]
  refine ⟨rfl, rfl, ?_, ?_, ?_⟩
  · rw [collisionSeparation_mkShip,
      show ((mkShip 2 0.03 3704).dimensions.length : ℝ) = 3704 from rfl,
      show ((mkShip 3 0.05 1852).dimensions.length : ℝ) = 1852 from rfl,
      Real.sqrt_lt' (by norm_num)]
    norm_num
  · rw [show ((mkShip 3 0.05 1852).dimensions.length : ℝ) = 1852 from rfl,
      show ((mkShip 2 0.03 3704).dimensions.length : ℝ) = 3704 from rfl]
    norm_num
  · unfold checkShipCollisions
    rw [show ([mkShip 1 0 5556, mkShip 2 0.03 3704, mkShip 3 0.05 1852] :
      List Ship).length = 3 from by simp]
    rw [show List.range 3 = [0, 1, 2] from rfl]
    simp only [List.foldl_cons, List.foldl_nil]
    rw [e0, e1, e2]
    rfl

/-! ### Lemmas for the destination/distance round trip (C8) -/

theorem one_sub_two_sin_sq (w : ℝ) : 1 - 2 * sin (w / 2) ^ 2 = cos w := by
  have h := Real.sin_sq_eq_half_sub (w / 2)
  rw [show 2 * (w / 2) = w by ring] at h
  linarith

/-- The projection onto the x-axis recovered from `atan2`: for every point,
    `√(x² + y²) · cos (atan2 y x) = x`. -/
theorem sqrt_mul_cos_atan2 (y x : ℝ) : Real.sqrt (x ^ 2 + y ^ 2) * cos (atan2 y x) = x := by
  by_cases hz : (⟨x, y⟩ : ℂ) = 0
  · have hx : x = 0 ∧ y = 0 := by
      rw [Complex.ext_iff] at hz
      exact hz
    rw [hx.1, hx.2]
    unfold atan2
    rw [show (⟨(0 : ℝ), (0 : ℝ)⟩ : ℂ) = 0 from by rw [Complex.ext_iff]; exact ⟨rfl, rfl⟩]
    rw [Complex.arg_zero]
    norm_num
  · have habs : Complex.abs ⟨x, y⟩ = Real.sqrt (x ^ 2 + y ^ 2) := by
      rw [Complex.abs_apply, Complex.normSq_mk]
      congr 1
      ring
    have hcos := Complex.cos_arg hz
    unfold atan2
    rw [hcos, habs]
    have hne : Real.sqrt (x ^ 2 + y ^ 2) ≠ 0 := by
      rw [← habs]
      exact (Complex.abs.ne_zero hz)
    field_simp

/-- `atan2` of a point on the unit circle with both coordinates given by
    square roots: the angle is the arcsine of the second coordinate. -/
theorem atan2_sqrt_eq_arcsin (a : ℝ) (h0 : 0 ≤ a) (h1 : a ≤ 1) :
    atan2 (Real.sqrt a) (Real.sqrt (1 - a)) = arcsin (Real.sqrt a) := by
  unfold atan2
  rw [Complex.arg_of_re_nonneg (Real.sqrt_nonneg (1 - a))]
  have habs : Complex.abs ⟨Real.sqrt (1 - a), Real.sqrt a⟩ = 1 := by
    rw [Complex.abs_apply, Complex.normSq_mk]
    rw [Real.mul_self_sqrt (by linarith), Real.mul_self_sqrt h0]
    rw [show 1 - a + a = 1 by ring]
    exact Real.sqrt_one
  rw [habs]
  norm_num

/-- Norm identity for the spherical destination construction: with unit
    vectors `(p, q)`, `(g, f)` and `(e, c)`, the longitude numerator and
    denominator satisfy `x² + y² = q² (1 − s²)`. -/
theorem dest_norm_identity (p q c e f g : ℝ) (h1 : p ^ 2 + q ^ 2 = 1)
    (h2 : g ^ 2 + f ^ 2 = 1) (h3 : e ^ 2 + c ^ 2 = 1) :
    (c - p * (p * c + q * e * f)) ^ 2 + (g * e * q) ^ 2 =
      q ^ 2 * (1 - (p * c + q * e * f) ^ 2) := by
  linear_combination q ^ 2 * h3 + q ^ 2 * e ^ 2 * h2 -
    (c ^ 2 - (p * c + q * e * f) ^ 2) * h1

theorem toRadians_lon_round_trip (lon A : ℝ) :
    toRadians (toDegrees (toRadians lon + A) - lon) = A := by
  unfold toRadians toDegrees
  have hπ : (π : ℝ) ≠ 0 := Real.pi_ne_zero
  field_simp
  ring

theorem toRadians_sub_deg (z lat : ℝ) :
    toRadians (toDegrees z - lat) = z - toRadians lat := by
  unfold toRadians toDegrees
  have hπ : (π : ℝ) ≠ 0 := Real.pi_ne_zero
  field_simp
  ring

set_option maxHeartbeats 1600000 in
/-- C8: for every point with a valid latitude, every distance in
    `[0.1, 100]` NM and every bearing, the haversine distance from the
    start point to `calculateDestination` of that distance and bearing is
    exactly the distance: `destination` and `distance` round-trip on the
    sphere of radius 3440.065 NM. -/
theorem C8_destination_distance_round_trip (lat lon d bearing : ℝ)
    (hlat1 : -90 ≤ lat) (hlat2 : lat ≤ 90) (hd1 : 0.1 ≤ d) (hd2 : d ≤ 100) :
    calculateDistance lat lon (calculateDestination lat lon d bearing).1
      (calculateDestination lat lon d bearing).2 = d := by
  have hπ3 : (3.141592 : ℝ) < π := by have := Real.pi_gt_d6; linarith
  have hRd1 : 0 < d / R := div_pos (by linarith) R_pos
  have hRd2 : d / R < 1 := by
    rw [div_lt_one R_pos]
    unfold R
    linarith
  -- the latitude stays in the closed first/fourth quadrant
  have hφ1a : -(π / 2) ≤ toRadians lat := by
    unfold toRadians
    nlinarith [Real.pi_pos]
  have hφ1b : toRadians lat ≤ π / 2 := by
    unfold toRadians
    nlinarith [Real.pi_pos]
  have hcosφ1 : 0 ≤ cos (toRadians lat) :=
    Real.cos_nonneg_of_mem_Icc ⟨hφ1a, hφ1b⟩
  -- the sine of the destination latitude
  have hkey : (sin (toRadians lat) * cos (d / R) +
        cos (toRadians lat) * sin (d / R) * cos (toRadians bearing)) ^ 2 +
      (sin (d / R) * sin (toRadians bearing)) ^ 2 +
      (sin (toRadians lat) * sin (d / R) * cos (toRadians bearing) -
        cos (toRadians lat) * cos (d / R)) ^ 2 = 1 := by
    linear_combination (cos (d / R) ^ 2 + sin (d / R) ^ 2 * cos (toRadians bearing) ^ 2) *
        Real.sin_sq_add_cos_sq (toRadians lat) +
      sin (d / R) ^ 2 * Real.sin_sq_add_cos_sq (toRadians bearing) +
      Real.sin_sq_add_cos_sq (d / R)
  have hs2 : -1 ≤ sin (toRadians lat) * cos (d / R) +
      cos (toRadians lat) * sin (d / R) * cos (toRadians bearing) := by
    nlinarith [hkey, sq_nonneg (sin (d / R) * sin (toRadians bearing)),
      sq_nonneg (sin (toRadians lat) * sin (d / R) * cos (toRadians bearing) -
        cos (toRadians lat) * cos (d / R)),
      sq_nonneg (sin (toRadians lat) * cos (d / R) +
        cos (toRadians lat) * sin (d / R) * cos (toRadians bearing) + 1)]
  have hs1 : sin (toRadians lat) * cos (d / R) +
      cos (toRadians lat) * sin (d / R) * cos (toRadians bearing) ≤ 1 := by
    nlinarith [hkey, sq_nonneg (sin (d / R) * sin (toRadians bearing)),
      sq_nonneg (sin (toRadians lat) * sin (d / R) * cos (toRadians bearing) -
        cos (toRadians lat) * cos (d / R)),
      sq_nonneg (sin (toRadians lat) * cos (d / R) +
        cos (toRadians lat) * sin (d / R) * cos (toRadians bearing) - 1)]
  unfold calculateDestination calculateDistance
  dsimp only
  rw [toRadians_lon_round_trip, toRadians_sub_deg, toRadians_toDegrees]
  rw [Real.sin_arcsin hs2 hs1, Real.cos_arcsin]
  -- name the recurring quantities
  set P := sin (toRadians lat) with hP
  set Q := cos (toRadians lat) with hQ
  set s := P * cos (d / R) + Q * sin (d / R) * cos (toRadians bearing) with hsdef
  set yv := sin (toRadians bearing) * sin (d / R) * Q with hyv
  set xv := cos (d / R) - P * s with hxv
  -- the norm of (xv, yv)
  have hxy : xv ^ 2 + yv ^ 2 = Q ^ 2 * (1 - s ^ 2) := by
    have := dest_norm_identity P Q (cos (d / R)) (sin (d / R)) (cos (toRadians bearing))
      (sin (toRadians bearing)) (Real.sin_sq_add_cos_sq (toRadians lat))
      (Real.sin_sq_add_cos_sq (toRadians bearing)) (Real.sin_sq_add_cos_sq (d / R))
    rw [hxv, hyv, hsdef]
    linear_combination this
  have hsqrt : Real.sqrt (xv ^ 2 + yv ^ 2) = Q * Real.sqrt (1 - s ^ 2) := by
    rw [hxy, Real.sqrt_mul (sq_nonneg Q), Real.sqrt_sq_eq_abs, abs_of_nonneg hcosφ1]
  have hx : Q * Real.sqrt (1 - s ^ 2) * cos (atan2 yv xv) = cos (d / R) - P * s := by
    rw [← hsqrt, sqrt_mul_cos_atan2, hxv]
  -- the haversine argument equals (1 − cos δ)/2
  have hcw : cos (arcsin s - toRadians lat) = Real.sqrt (1 - s ^ 2) * Q + s * P := by
    rw [Real.cos_sub, Real.cos_arcsin, Real.sin_arcsin hs2 hs1]
  have hA : sin ((arcsin s - toRadians lat) / 2) * sin ((arcsin s - toRadians lat) / 2) +
      Q * Real.sqrt (1 - s ^ 2) *
        (sin (atan2 yv xv / 2) * sin (atan2 yv xv / 2)) =
      (1 - cos (d / R)) / 2 := by
    have e1 := one_sub_two_sin_sq (arcsin s - toRadians lat)
    have e2 := one_sub_two_sin_sq (atan2 yv xv)
    linear_combination (-1 / 2 : ℝ) * e1 +
      (-(Q * Real.sqrt (1 - s ^ 2)) / 2) * e2 + (-1 / 2 : ℝ) * hcw + (-1 / 2 : ℝ) * hx
  rw [hA]
  have h0A : (0 : ℝ) ≤ (1 - cos (d / R)) / 2 := by
    have := Real.cos_le_one (d / R)
    linarith
  have h1A : (1 - cos (d / R)) / 2 ≤ 1 := by
    have := Real.neg_one_le_cos (d / R)
    linarith
  rw [atan2_sqrt_eq_arcsin ((1 - cos (d / R)) / 2) h0A h1A]
  have hhalf : Real.sqrt ((1 - cos (d / R)) / 2) = sin (d / R / 2) := by
    have h := Real.sin_sq_eq_half_sub (d / R / 2)
    rw [show 2 * (d / R / 2) = d / R by ring] at h
    rw [show (1 - cos (d / R)) / 2 = sin (d / R / 2) ^ 2 from by linarith]
    rw [Real.sqrt_sq_eq_abs]
    apply abs_of_nonneg
    apply Real.sin_nonneg_of_nonneg_of_le_pi
    · linarith
    · nlinarith [hπ3]
  rw [hhalf]
  rw [Real.arcsin_sin (by nlinarith [hπ3]) (by nlinarith [hπ3])]
  rw [show 2 * (d / R / 2) = d / R by ring]
  rw [mul_comm]
  exact div_mul_cancel₀ d R_pos.ne'

/-- Witness for C8 at a concrete input: 1 NM on bearing 45° from
    (50°N, 1°W). -/
theorem C8_destination_distance_round_trip_witness :
    (-90 : ℝ) ≤ 50 ∧ (50 : ℝ) ≤ 90 ∧ (0.1 : ℝ) ≤ 1 ∧ (1 : ℝ) ≤ 100 ∧
    calculateDistance 50 (-1) (calculateDestination 50 (-1) 1 45).1
      (calculateDestination 50 (-1) 1 45).2 = 1 :=
  ⟨by norm_num, by norm_num, by norm_num, by norm_num,
    C8_destination_distance_round_trip 50 (-1) 1 45 (by norm_num) (by norm_num)
      (by norm_num) (by norm_num)⟩

/-! ### The vessel-state invariant (C4) -/

/-- Kinematic part of the vessel-state invariant: heading in `[0, 360)`,
    turn rate within ±3°/min, nonnegative speed, and the data-model ranges
    of the optional demanded/normal values (demanded courses lie in
    `[0, 360)`, demanded and normal speeds are nonnegative). -/
def ShipKinInv (s : Ship) : Prop :=
  0 ≤ s.heading ∧ s.heading < 360 ∧ |s.turnRate| ≤ 3 ∧ 0 ≤ s.speed ∧
    (∀ c ∈ s.demandedCourse, 0 ≤ c ∧ c < 360) ∧
    (∀ v ∈ s.demandedSpeed, 0 ≤ v) ∧
    (∀ v ∈ s.normalSpeed, 0 ≤ v)

/-- The vessel-state invariant: the kinematic ranges plus the bounded
    trail. -/
def ShipInv (maxTrailLength : ℕ) (s : Ship) : Prop :=
  ShipKinInv s ∧ s.trail.length ≤ maxTrailLength

theorem sign_mul_abs (r : ℝ) : Real.sign r * |r| = r := by
  rcases lt_trichotomy r 0 with h | h | h
  · rw [Real.sign_of_neg h, abs_of_neg h]; ring
  · rw [h, Real.sign_zero]; simp
  · rw [Real.sign_of_pos h, abs_of_pos h]; ring

theorem abs_sign_le_one (r : ℝ) : |Real.sign r| ≤ 1 := by
  rcases lt_trichotomy r 0 with h | h | h
  · rw [Real.sign_of_neg h]; norm_num
  · rw [h, Real.sign_zero]; norm_num
  · rw [Real.sign_of_pos h]; norm_num

/-- One speed ramp keeps the speed nonnegative when the demanded speed (if
    any) is nonnegative. -/
theorem calculateNewSpeed_nonneg (s : ℝ) (ds : Option ℝ) (m : ℝ) (hs : 0 ≤ s)
    (hds : ∀ v ∈ ds, 0 ≤ v) (hm : 0 ≤ m) : 0 ≤ calculateNewSpeed s ds m := by
  rcases ds with _ | v
  · simpa [calculateNewSpeed] using hs
  · have hv : 0 ≤ v := hds v rfl
    simp only [calculateNewSpeed]
    by_cases h0 : v = 0
    · rw [if_pos h0]; exact hs
    · rw [if_neg h0]
      by_cases hle : |v - s| ≤ 1 * m
      · rw [if_pos hle]; exact hv
      · rw [if_neg hle]
        rcases lt_trichotomy (v - s) 0 with hd | hd | hd
        · rw [Real.sign_of_neg hd]
          rw [abs_of_neg hd] at hle
          push_neg at hle
          nlinarith
        · rw [hd, Real.sign_zero]; nlinarith
        · rw [Real.sign_of_pos hd]; nlinarith

/-- The turn-rate decay branch keeps the heading in `[0, 360)` and the
    turn rate within ±3°/min. -/
theorem headingDecay_inv (h tr m : ℝ) (hh1 : 0 ≤ h) (hh2 : h < 360)
    (htr : |tr| ≤ 3) (hm : 0 < m) :
    (0 ≤ (headingDecay h tr m).1 ∧ (headingDecay h tr m).1 < 360) ∧
      |(headingDecay h tr m).2| ≤ 3 := by
  unfold headingDecay
  by_cases h0 : tr = 0
  · rw [if_pos h0]
    exact ⟨⟨hh1, hh2⟩, by norm_num⟩
  · rw [if_neg h0]
    dsimp only
    by_cases hdec : |tr| ≤ 1.0 * m * 60
    · rw [if_pos hdec]
      constructor
      · constructor
        · apply jsMod_nonneg (by nlinarith) (by norm_num)
        · apply jsMod_lt (by nlinarith) (by norm_num)
      · norm_num
    · rw [if_neg hdec]
      push_neg at hdec
      have hm60 : 1.0 * m * 60 < |tr| := hdec
      have habs : |tr - Real.sign tr * (1.0 * m * 60)| = |tr| - 1.0 * m * 60 := by
        rcases lt_trichotomy tr 0 with hn | hn | hn
        · rw [Real.sign_of_neg hn, abs_of_neg hn]
          rw [abs_of_neg (by nlinarith [abs_of_neg hn])]
          ring
        · exact absurd hn h0
        · rw [Real.sign_of_pos hn, abs_of_pos hn]
          rw [abs_of_pos (by nlinarith [abs_of_pos hn])]
          ring
      have hrate : |tr - Real.sign tr * (1.0 * m * 60)| ≤ 3 := by
        rw [habs]; nlinarith [abs_nonneg tr]
      refine ⟨⟨?_, ?_⟩, hrate⟩
      · apply jsMod_nonneg ?_ (by norm_num)
        have hmsmall : m < 3 / 60 := by nlinarith [abs_nonneg tr]
        have := abs_le.mp hrate
        nlinarith
      · apply jsMod_lt ?_ (by norm_num)
        have hmsmall : m < 3 / 60 := by nlinarith [abs_nonneg tr]
        have := abs_le.mp hrate
        nlinarith

/-- One heading update keeps the heading in `[0, 360)` and the turn rate
    within ±3°/min, given the data-model ranges of the inputs. -/
theorem calculateNewHeading_inv (h tr : ℝ) (dc : Option ℝ) (m : ℝ)
    (hh1 : 0 ≤ h) (hh2 : h < 360) (htr : |tr| ≤ 3)
    (hdc : ∀ c ∈ dc, 0 ≤ c ∧ c < 360) (hm : 0 < m) :
    (0 ≤ (calculateNewHeading h tr dc m).1 ∧ (calculateNewHeading h tr dc m).1 < 360) ∧
      |(calculateNewHeading h tr dc m).2| ≤ 3 := by
  rcases dc with _ | c
  · simp only [calculateNewHeading]
    exact headingDecay_inv h tr m hh1 hh2 htr hm
  · have hc := hdc c rfl
    simp only [calculateNewHeading]
    by_cases h0 : c = 0
    · rw [if_pos h0]
      exact headingDecay_inv h tr m hh1 hh2 htr hm
    · rw [if_neg h0]
      set diff0 := c - h with hdiff0
      set diff1 := if diff0 > 180 then diff0 - 360 else diff0 with hdiff1
      set diff := if diff1 < -180 then diff1 + 360 else diff1 with hdiff
      have hdiffle : |diff| ≤ 180 := by
        rw [hdiff, hdiff1, hdiff0]
        rcases le_or_lt (c - h) 180 with hle | hgt
        · rw [if_neg (not_lt.mpr hle)]
          rcases le_or_lt (-180 : ℝ) (c - h) with hge | hlt
          · rw [if_neg (not_lt.mpr hge)]
            rw [abs_le]
            exact ⟨by linarith, by linarith⟩
          · rw [if_pos hlt]
            rw [abs_le]
            constructor
            · linarith [hc.1]
            · linarith
        · rw [if_pos hgt]
          rw [if_neg (by push_neg; linarith)]
          rw [abs_le]
          constructor
          · linarith
          · linarith [hc.2, hh1]
      set target := Real.sign diff * min 3.0 (|diff| / m) with htarget
      have hmin0 : (0 : ℝ) ≤ min 3.0 (|diff| / m) := by
        apply le_min
        · norm_num
        · positivity
      have hmin3 : min 3.0 (|diff| / m) ≤ 3.0 := min_le_left _ _
      have htargetle : |target| ≤ 3 := by
        rw [htarget, abs_mul, abs_of_nonneg hmin0]
        have h8 : 0 ≤ (1 - |Real.sign diff|) * min 3.0 (|diff| / m) :=
          mul_nonneg (by linarith [abs_sign_le_one diff]) hmin0
        nlinarith [h8]
      have hminm : min 3.0 (|diff| / m) * m ≤ |diff| := by
        have h1 : min 3.0 (|diff| / m) ≤ |diff| / m := min_le_right _ _
        have h2 : min 3.0 (|diff| / m) * m ≤ |diff| / m * m :=
          mul_le_mul_of_nonneg_right h1 hm.le
        rwa [div_mul_cancel₀ _ hm.ne'] at h2
      have htargetm : |target * m| ≤ |diff| := by
        rw [htarget, show Real.sign diff * min 3.0 (|diff| / m) * m =
          Real.sign diff * (min 3.0 (|diff| / m) * m) by ring]
        rw [abs_mul, abs_of_nonneg (mul_nonneg hmin0 hm.le)]
        have h8 : 0 ≤ (1 - |Real.sign diff|) * (min 3.0 (|diff| / m) * m) :=
          mul_nonneg (by linarith [abs_sign_le_one diff]) (mul_nonneg hmin0 hm.le)
        nlinarith [h8, hminm]
      set trd := target - tr with htrd
      set change := Real.sign trd * min |trd| (0.5 * m * 60) with hchange
      set newRate := tr + change with hnewRate
      have h3 := abs_le.mp htr
      have h4 := abs_le.mp htargetle
      have hnewRatele : |newRate| ≤ 3 := by
        rcases le_or_lt |trd| (0.5 * m * 60) with hle | hgt
        · have hceq : change = trd := by
            rw [hchange, min_eq_left hle, sign_mul_abs]
          have hnr : newRate = target := by
            rw [hnewRate, hceq, htrd]; ring
          rw [hnr]
          exact htargetle
        · have hchangeeq : change = Real.sign trd * (0.5 * m * 60) := by
            rw [hchange, min_eq_right hgt.le]
          rcases lt_trichotomy trd 0 with hn | hn | hn
          · rw [abs_of_neg hn] at hgt
            rw [hnewRate, hchangeeq, Real.sign_of_neg hn, abs_le]
            constructor <;> linarith [htrd]
          · have hnr : newRate = tr := by
              rw [hnewRate, hchangeeq, hn, Real.sign_zero]; ring
            rw [hnr]
            exact htr
          · rw [abs_of_pos hn] at hgt
            rw [hnewRate, hchangeeq, Real.sign_of_pos hn, abs_le]
            constructor <;> linarith [htrd]
      have hnewRatem : -360 ≤ newRate * m := by
        rcases le_or_lt |trd| (0.5 * m * 60) with hle | hgt
        · have hceq : change = trd := by
            rw [hchange, min_eq_left hle, sign_mul_abs]
          have hnr : newRate = target := by
            rw [hnewRate, hceq, htrd]; ring
          rw [hnr]
          have h5 := (abs_le.mp htargetm).1
          linarith [hdiffle]
        · have hmsmall : m < 0.2 := by
            have h6 : |trd| ≤ 6 := by
              rw [htrd, abs_le]
              constructor <;> linarith [h3.1, h3.2, h4.1, h4.2]
            nlinarith
          have h7 : 0 ≤ (newRate + 3) * m :=
            mul_nonneg (by linarith [(abs_le.mp hnewRatele).1]) hm.le
          nlinarith [h7]
      by_cases hsnap : (diff > 0 ∧ jsMod (h + newRate * m + 360) 360 ≥ c) ∨
          (diff < 0 ∧ jsMod (h + newRate * m + 360) 360 ≤ c)
      · rw [if_pos hsnap]
        exact ⟨⟨hc.1, hc.2⟩, by norm_num⟩
      · rw [if_neg hsnap]
        refine ⟨⟨?_, ?_⟩, hnewRatele⟩
        · apply jsMod_nonneg (by linarith) (by norm_num)
        · apply jsMod_lt (by linarith) (by norm_num)

/-- `∀`-over-`Option` introduction for a present value. -/
theorem forall_mem_some {α : Type} {P : α → Prop} {a : α} (h : P a) :
    ∀ v ∈ some a, P v := by
  intro v hv
  rw [Option.mem_def, Option.some_inj] at hv
  exact hv ▸ h

/-- `∀`-over-`Option` holds vacuously for an absent value. -/
theorem forall_mem_none {α : Type} {P : α → Prop} : ∀ v ∈ (none : Option α), P v := by
  intro v hv
  simp at hv

/-- `Math.atan2` is strictly above `-π` (the principal-value range). -/
theorem atan2_neg_pi_lt (y x : ℝ) : -π < atan2 y x :=
  Complex.neg_pi_lt_arg _

/-- The `(atan2 · 180/π + 360) % 360` normalisation used by the
    return-to-spawn behavior lands in `[0, 360)`. -/
theorem atan2_deg_range (y x : ℝ) :
    0 ≤ jsMod (atan2 y x * 180 / π + 360) 360 ∧
      jsMod (atan2 y x * 180 / π + 360) 360 < 360 := by
  have hπ := Real.pi_pos
  have hgt : (-180 : ℝ) < atan2 y x * 180 / π := by
    rw [lt_div_iff₀ hπ]
    linarith [atan2_neg_pi_lt y x]
  exact ⟨jsMod_nonneg (by linarith) (by norm_num), jsMod_lt (by linarith) (by norm_num)⟩

/-- Every heading the land-aware clear-heading search can return lies in
    `[0, 360)` when the current heading does. -/
theorem findClearHeadingWithLand_range (lat lon ch sp : ℝ) (others : List OtherShip)
    (land : List LandPolygon) (h0 : 0 ≤ ch) (h1 : ch < 360) :
    ∀ x ∈ findClearHeadingWithLand lat lon ch sp others land, 0 ≤ x ∧ x < 360 := by
  intro x hx
  unfold findClearHeadingWithLand at hx
  split at hx
  · rw [Option.mem_def, Option.some_inj] at hx
    exact hx ▸ ⟨h0, h1⟩
  · rw [Option.mem_def] at hx
    dsimp only at hx
    have hmem := List.mem_of_find?_eq_some hx
    rcases List.mem_append.mp hmem with hS | hP
    · rcases List.mem_map.mp hS with ⟨k, hk, rfl⟩
      have hc0 : (0 : ℝ) ≤ ((10 * (k + 1) : ℕ) : ℝ) := by positivity
      exact ⟨jsMod_nonneg (by linarith) (by norm_num), jsMod_lt (by linarith) (by norm_num)⟩
    · rcases List.mem_map.mp hP with ⟨k, hk, rfl⟩
      have hk18 : k < 18 := List.mem_range.mp hk
      have hle : ((10 * (k + 1) : ℕ) : ℝ) ≤ 180 := by
        have h2 : (10 * (k + 1) : ℕ) ≤ 180 := by omega
        exact_mod_cast h2
      have hge : (0 : ℝ) ≤ ((10 * (k + 1) : ℕ) : ℝ) := by positivity
      exact ⟨jsMod_nonneg (by linarith) (by norm_num), jsMod_lt (by linarith) (by norm_num)⟩

/-- Any decision the ground-avoidance behavior emits demands a course in
    `[0, 360)` and a nonnegative speed. -/
theorem groundAvoidanceEvaluate_ranges (s : Ship) (o : List Ship) (l : List LandPolygon)
    (hh1 : 0 ≤ s.heading) (hh2 : s.heading < 360) (hsp : 0 ≤ s.speed)
    (hns : ∀ v ∈ s.normalSpeed, 0 ≤ v) :
    ∀ d ∈ groundAvoidanceEvaluate s o l,
      (∀ c ∈ d.demandedCourse, 0 ≤ c ∧ c < 360) ∧ ∀ v ∈ d.demandedSpeed, 0 ≤ v := by
  have hbase : (0 : ℝ) ≤ s.normalSpeed.getD s.speed * 0.67 := by
    have h2 : 0 ≤ s.normalSpeed.getD s.speed := by
      rcases hcase : s.normalSpeed with _ | ns
      · exact hsp
      · exact hns ns hcase
    nlinarith
  intro d hd
  unfold groundAvoidanceEvaluate at hd
  split at hd
  · simp at hd
  · dsimp only at hd
    split at hd
    · simp at hd
    · split at hd
      · rw [Option.mem_def, Option.some_inj] at hd
        subst hd
        exact ⟨forall_mem_none, forall_mem_some hbase⟩
      · rename_i hfound
        rw [Option.mem_def, Option.some_inj] at hd
        subst hd
        have hrange := findClearHeadingWithLand_range s.position.latitude
          s.position.longitude s.heading s.speed _ l hh1 hh2 _ hfound
        exact ⟨forall_mem_some hrange, forall_mem_some hbase⟩

/-- Any decision the ship-collision-avoidance behavior emits demands a
    course in `[0, 360)` and a nonnegative speed. -/
theorem shipCollisionAvoidanceEvaluate_ranges (s : Ship) (o : List Ship)
    (l : List LandPolygon) (hh1 : 0 ≤ s.heading) (hh2 : s.heading < 360) (hsp : 0 ≤ s.speed)
    (hns : ∀ v ∈ s.normalSpeed, 0 ≤ v) :
    ∀ d ∈ shipCollisionAvoidanceEvaluate s o l,
      (∀ c ∈ d.demandedCourse, 0 ≤ c ∧ c < 360) ∧ ∀ v ∈ d.demandedSpeed, 0 ≤ v := by
  have hbase : (0 : ℝ) ≤ s.normalSpeed.getD s.speed * 0.67 := by
    have h2 : 0 ≤ s.normalSpeed.getD s.speed := by
      rcases hcase : s.normalSpeed with _ | ns
      · exact hsp
      · exact hns ns hcase
    nlinarith
  intro d hd
  unfold shipCollisionAvoidanceEvaluate at hd
  split at hd
  · simp at hd
  · dsimp only at hd
    split at hd
    · simp at hd
    · split at hd
      · rw [Option.mem_def, Option.some_inj] at hd
        subst hd
        exact ⟨forall_mem_none, forall_mem_some hbase⟩
      · rename_i hfound
        rw [Option.mem_def, Option.some_inj] at hd
        subst hd
        have hrange := findClearHeadingWithLand_range s.position.latitude
          s.position.longitude s.heading s.speed _ l hh1 hh2 _ hfound
        exact ⟨forall_mem_some hrange, forall_mem_some hbase⟩

/-- Any decision the return-to-spawn behavior emits demands a course in
    `[0, 360)` and no speed. -/
theorem returnToSpawnEvaluate_ranges (s : Ship) :
    ∀ d ∈ returnToSpawnEvaluate s,
      (∀ c ∈ d.demandedCourse, 0 ≤ c ∧ c < 360) ∧ ∀ v ∈ d.demandedSpeed, 0 ≤ v := by
  intro d hd
  unfold returnToSpawnEvaluate at hd
  split at hd
  · simp at hd
  · dsimp only at hd
    split at hd
    · simp at hd
    · rw [Option.mem_def, Option.some_inj] at hd
      subst hd
      exact ⟨forall_mem_some (atan2_deg_range _ _), forall_mem_none⟩

/-- Any decision the behavior arbiter returns demands a course in
    `[0, 360)` and a nonnegative speed. -/
theorem evaluateBehaviors_ranges (s : Ship) (o : List Ship) (l : List LandPolygon)
    (hh1 : 0 ≤ s.heading) (hh2 : s.heading < 360) (hsp : 0 ≤ s.speed)
    (hns : ∀ v ∈ s.normalSpeed, 0 ≤ v) :
    ∀ p ∈ evaluateBehaviors s o l,
      (∀ c ∈ p.1.demandedCourse, 0 ≤ c ∧ c < 360) ∧ ∀ v ∈ p.1.demandedSpeed, 0 ≤ v := by
  intro p hp
  unfold evaluateBehaviors at hp
  split at hp
  · simp at hp
  · split at hp
    · rename_i d heq
      rw [Option.mem_def, Option.some_inj] at hp
      subst hp
      exact groundAvoidanceEvaluate_ranges s o l hh1 hh2 hsp hns d heq
    · split at hp
      · rename_i d heq
        rw [Option.mem_def, Option.some_inj] at hp
        subst hp
        exact shipCollisionAvoidanceEvaluate_ranges s o l hh1 hh2 hsp hns d heq
      · split at hp
        · rename_i d heq
          rw [Option.mem_def, Option.some_inj] at hp
          subst hp
          exact returnToSpawnEvaluate_ranges s d heq
        · simp at hp

/-- The arbitrated avoidance update preserves the kinematic invariant and
    never touches the trail. -/
theorem avoidCollisions_kin (s : Ship) (o : List Ship) (l : List LandPolygon)
    (h : ShipKinInv s) :
    ShipKinInv (avoidCollisions s o l) ∧ (avoidCollisions s o l).trail = s.trail := by
  obtain ⟨h1, h2, h3, h4, h5, h6, h7⟩ := h
  unfold avoidCollisions
  split
  · exact ⟨⟨h1, h2, h3, h4, h5, h6, h7⟩, rfl⟩
  · rcases hev : evaluateBehaviors s o l with _ | ⟨d, b⟩
    · dsimp only
      split
      · rcases hn : s.normalSpeed with _ | ns
        · refine ⟨⟨h1, h2, h3, h4, h5, h6, ?_⟩, rfl⟩
          exact forall_mem_none
        · refine ⟨⟨h1, h2, h3, h4, h5, ?_, ?_⟩, rfl⟩
          · exact forall_mem_some (h7 ns hn)
          · exact forall_mem_none
      · exact ⟨⟨h1, h2, h3, h4, h5, h6, h7⟩, rfl⟩
    · obtain ⟨hdc, hds⟩ := evaluateBehaviors_ranges s o l h1 h2 h4 h7 (d, b) hev
      dsimp only
      rcases hc : d.demandedCourse with _ | dc
      all_goals rcases hd2 : d.demandedSpeed with _ | ds
      all_goals dsimp only
      all_goals (by_cases hsn : (d.storeNormalSpeed && s.normalSpeed.isNone &&
        s.demandedSpeed.isSome) = true <;> first | rw [if_pos hsn] | rw [if_neg hsn])
      all_goals try dsimp only
      all_goals try (by_cases hlow : (s.demandedSpeed.isNone = true ∨
        ∃ cur, s.demandedSpeed = some cur ∧ cur > ds) <;>
          first | rw [if_pos hlow] | rw [if_neg hlow])
      all_goals refine ⟨⟨h1, h2, h3, h4, ?_, ?_, ?_⟩, rfl⟩
      all_goals first
        | exact h5
        | exact h6
        | exact h7
        | exact forall_mem_some (hdc _ hc)
        | exact forall_mem_some (hds _ hd2)

/-- One movement update preserves the kinematic invariant. -/
theorem updateMovement_kin (s : Ship) (m : ℝ) (t : ℕ) (h : ShipKinInv s) (hm : 0 < m) :
    ShipKinInv (updateMovement s m t) := by
  obtain ⟨h1, h2, h3, h4, h5, h6, h7⟩ := h
  unfold updateMovement
  split
  · exact ⟨h1, h2, h3, h4, h5, h6, h7⟩
  · dsimp only
    rcases hc : s.demandedCourse with _ | dc
    · obtain ⟨⟨hn1, hn2⟩, hn3⟩ := calculateNewHeading_inv s.heading s.turnRate none m
        h1 h2 h3 forall_mem_none hm
      dsimp only
      rcases hd2 : s.demandedSpeed with _ | ds
      · have hsp := calculateNewSpeed_nonneg s.speed none m h4 forall_mem_none hm.le
        dsimp only
        refine ⟨?_, ?_, ?_, ?_, ?_, ?_, ?_⟩ <;>
          first
            | exact hn1
            | exact hn2
            | exact hn3
            | exact hsp
            | exact h5
            | exact h6
            | exact h7
            | exact hdc.1
            | exact hdc.2
            | exact hds0
            | exact (by norm_num : |(0 : ℝ)| ≤ 3)
            | exact forall_mem_none
            | exact forall_mem_some hdc
            | exact forall_mem_some hds0
      · have hds0 : 0 ≤ ds := h6 ds hd2
        have hsp := calculateNewSpeed_nonneg s.speed (some ds) m h4
          (forall_mem_some hds0) hm.le
        dsimp only
        by_cases hss : |calculateNewSpeed s.speed (some ds) m - ds| < 0.1
        · rw [if_pos hss]
          refine ⟨?_, ?_, ?_, ?_, ?_, ?_, ?_⟩ <;>
            first
              | exact hn1
              | exact hn2
              | exact hn3
              | exact hsp
              | exact h5
              | exact h6
              | exact h7
              | exact hdc.1
              | exact hdc.2
              | exact hds0
              | exact (by norm_num : |(0 : ℝ)| ≤ 3)
              | exact forall_mem_none
              | exact forall_mem_some hdc
              | exact forall_mem_some hds0
        · rw [if_neg hss]
          refine ⟨?_, ?_, ?_, ?_, ?_, ?_, ?_⟩ <;>
            first
              | exact hn1
              | exact hn2
              | exact hn3
              | exact hsp
              | exact h5
              | exact h6
              | exact h7
              | exact hdc.1
              | exact hdc.2
              | exact hds0
              | exact (by norm_num : |(0 : ℝ)| ≤ 3)
              | exact forall_mem_none
              | exact forall_mem_some hdc
              | exact forall_mem_some hds0
    · have hdc := h5 dc hc
      obtain ⟨⟨hn1, hn2⟩, hn3⟩ := calculateNewHeading_inv s.heading s.turnRate (some dc) m
        h1 h2 h3 (forall_mem_some hdc) hm
      dsimp only
      by_cases hhs : |(calculateNewHeading s.heading s.turnRate (some dc) m).1 - dc| < 0.1 ∧
          |(calculateNewHeading s.heading s.turnRate (some dc) m).2| < 0.1
      · rw [if_pos hhs]
        dsimp only
        rcases hd2 : s.demandedSpeed with _ | ds
        · have hsp := calculateNewSpeed_nonneg s.speed none m h4 forall_mem_none hm.le
          dsimp only
          refine ⟨?_, ?_, ?_, ?_, ?_, ?_, ?_⟩ <;>
            first
              | exact hn1
              | exact hn2
              | exact hn3
              | exact hsp
              | exact h5
              | exact h6
              | exact h7
              | exact hdc.1
              | exact hdc.2
              | exact hds0
              | exact (by norm_num : |(0 : ℝ)| ≤ 3)
              | exact forall_mem_none
              | exact forall_mem_some hdc
              | exact forall_mem_some hds0
        · have hds0 : 0 ≤ ds := h6 ds hd2
          have hsp := calculateNewSpeed_nonneg s.speed (some ds) m h4
            (forall_mem_some hds0) hm.le
          dsimp only
          by_cases hss : |calculateNewSpeed s.speed (some ds) m - ds| < 0.1
          · rw [if_pos hss]
            refine ⟨?_, ?_, ?_, ?_, ?_, ?_, ?_⟩ <;>
              first
                | exact hn1
                | exact hn2
                | exact hn3
                | exact hsp
                | exact h5
                | exact h6
                | exact h7
                | exact hdc.1
                | exact hdc.2
                | exact hds0
                | exact (by norm_num : |(0 : ℝ)| ≤ 3)
                | exact forall_mem_none
                | exact forall_mem_some hdc
                | exact forall_mem_some hds0
          · rw [if_neg hss]
            refine ⟨?_, ?_, ?_, ?_, ?_, ?_, ?_⟩ <;>
              first
                | exact hn1
                | exact hn2
                | exact hn3
                | exact hsp
                | exact h5
                | exact h6
                | exact h7
                | exact hdc.1
                | exact hdc.2
                | exact hds0
                | exact (by norm_num : |(0 : ℝ)| ≤ 3)
                | exact forall_mem_none
                | exact forall_mem_some hdc
                | exact forall_mem_some hds0
      · rw [if_neg hhs]
        dsimp only
        rcases hd2 : s.demandedSpeed with _ | ds
        · have hsp := calculateNewSpeed_nonneg s.speed none m h4 forall_mem_none hm.le
          dsimp only
          refine ⟨?_, ?_, ?_, ?_, ?_, ?_, ?_⟩ <;>
            first
              | exact hn1
              | exact hn2
              | exact hn3
              | exact hsp
              | exact h5
              | exact h6
              | exact h7
              | exact hdc.1
              | exact hdc.2
              | exact hds0
              | exact (by norm_num : |(0 : ℝ)| ≤ 3)
              | exact forall_mem_none
              | exact forall_mem_some hdc
              | exact forall_mem_some hds0
        · have hds0 : 0 ≤ ds := h6 ds hd2
          have hsp := calculateNewSpeed_nonneg s.speed (some ds) m h4
            (forall_mem_some hds0) hm.le
          dsimp only
          by_cases hss : |calculateNewSpeed s.speed (some ds) m - ds| < 0.1
          · rw [if_pos hss]
            refine ⟨?_, ?_, ?_, ?_, ?_, ?_, ?_⟩ <;>
              first
                | exact hn1
                | exact hn2
                | exact hn3
                | exact hsp
                | exact h5
                | exact h6
                | exact h7
                | exact hdc.1
                | exact hdc.2
                | exact hds0
                | exact (by norm_num : |(0 : ℝ)| ≤ 3)
                | exact forall_mem_none
                | exact forall_mem_some hdc
                | exact forall_mem_some hds0
          · rw [if_neg hss]
            refine ⟨?_, ?_, ?_, ?_, ?_, ?_, ?_⟩ <;>
              first
                | exact hn1
                | exact hn2
                | exact hn3
                | exact hsp
                | exact h5
                | exact h6
                | exact h7
                | exact hdc.1
                | exact hdc.2
                | exact hds0
                | exact (by norm_num : |(0 : ℝ)| ≤ 3)
                | exact forall_mem_none
                | exact forall_mem_some hdc
                | exact forall_mem_some hds0

/-- A predicate true of every element of a list-valued fold stays true
    when every step preserves it. -/
theorem foldl_pres (Q : List Ship → Prop) (f : List Ship → ℕ → List Ship)
    (hf : ∀ acc j, Q acc → Q (f acc j)) :
    ∀ (js : List ℕ) (acc : List Ship), Q acc → Q (js.foldl f acc) := by
  intro js
  induction js with
  | nil => intro acc h; simpa using h
  | cons j js ih =>
    intro acc h
    rw [List.foldl_cons]
    exact ih _ (hf acc j h)

/-- Writing one element that satisfies a pointwise predicate preserves it
    across the whole list. -/
theorem mem_set_pres {P : Ship → Prop} {l : List Ship} {i : ℕ} {a : Ship}
    (hl : ∀ s ∈ l, P s) (ha : P a) : ∀ s ∈ l.set i a, P s := by
  intro s hs
  rcases List.mem_or_eq_of_mem_set hs with h | h
  · exact hl s h
  · exact h ▸ ha

/-- One inner collision step preserves the kinematic invariant of every
    fleet member (a status flip does not touch the kinematic fields). -/
theorem resolvePair_kin {l : List Ship} (hl : ∀ s ∈ l, ShipKinInv s)
    {shipI : Ship} (hI : ShipKinInv shipI) (i j : ℕ) :
    ∀ s ∈ resolvePair l i j shipI, ShipKinInv s := by
  intro s hs
  unfold resolvePair at hs
  split at hs
  · exact hl s hs
  · rename_i other hj
    have hother : ShipKinInv other := hl other (List.getElem?_mem hj)
    split at hs
    · exact hl s hs
    · dsimp only at hs
      have hIdis : ShipKinInv { shipI with status := ShipStatus.disabled } := hI
      have hodis : ShipKinInv { other with status := ShipStatus.disabled } := hother
      split at hs
      · split at hs
        · exact mem_set_pres (mem_set_pres hl hIdis) hodis s hs
        · split at hs
          · exact mem_set_pres hl hIdis s hs
          · exact mem_set_pres hl hodis s hs
      · exact hl s hs

/-- One outer collision iteration preserves the kinematic invariant of
    every fleet member. -/
theorem collideOuterStep_kin {l : List Ship} (hl : ∀ s ∈ l, ShipKinInv s) (i : ℕ) :
    ∀ s ∈ collideOuterStep l i, ShipKinInv s := by
  intro s hs
  unfold collideOuterStep at hs
  split at hs
  · exact hl s hs
  · rename_i shipI hi
    split at hs
    · exact hl s hs
    · have hI : ShipKinInv shipI := hl shipI (List.getElem?_mem hi)
      exact foldl_pres (fun acc => ∀ y ∈ acc, ShipKinInv y)
        (fun acc j => resolvePair acc i j shipI)
        (fun acc j hacc => resolvePair_kin hacc hI i j)
        (List.range' (i + 1) (l.length - (i + 1))) l hl s hs

/-- The ship collision pass preserves the kinematic invariant of every
    fleet member. -/
theorem checkShipCollisions_kin {l : List Ship} (hl : ∀ s ∈ l, ShipKinInv s) :
    ∀ s ∈ checkShipCollisions l, ShipKinInv s := by
  unfold checkShipCollisions
  exact foldl_pres (fun acc => ∀ y ∈ acc, ShipKinInv y) collideOuterStep
    (fun acc j hacc => collideOuterStep_kin hacc j) (List.range l.length) l hl

/-- The grounding pass preserves the kinematic invariant of every fleet
    member. -/
theorem checkGrounding_kin {l : List Ship} (land : List LandPolygon)
    (hl : ∀ s ∈ l, ShipKinInv s) : ∀ s ∈ checkGrounding l land, ShipKinInv s := by
  intro s hs
  unfold checkGrounding at hs
  rcases List.mem_map.mp hs with ⟨orig, horig, rfl⟩
  have hk := hl orig horig
  split
  · exact hk
  · split
    · exact hk
    · exact hk

/-- The avoidance pass preserves the kinematic invariant of every fleet
    member. -/
theorem avoidancePass_kin {l : List Ship} (land : List LandPolygon)
    (hl : ∀ s ∈ l, ShipKinInv s) : ∀ s ∈ avoidancePass l land, ShipKinInv s := by
  intro s hs
  unfold avoidancePass at hs
  rcases List.mem_map.mp hs with ⟨orig, horig, rfl⟩
  have hk := hl orig horig
  split
  · exact hk
  · exact (avoidCollisions_kin orig _ land hk).1

/-- The trail-trim pass bounds every trail by the configured maximum and
    keeps the kinematic invariant. -/
theorem limitTrailLength_inv (maxT : ℕ) (hmaxT : 0 < maxT) (l : List Ship)
    (hl : ∀ s ∈ l, ShipKinInv s) :
    ∀ s ∈ limitTrailLength maxT l, ShipInv maxT s := by
  intro s hs
  unfold limitTrailLength at hs
  rcases List.mem_map.mp hs with ⟨orig, horig, rfl⟩
  have hk := hl orig horig
  split
  · rename_i hlen
    exact ⟨hk, hlen⟩
  · rename_i hlen
    push_neg at hlen
    refine ⟨hk, ?_⟩
    show (jsSliceNeg orig.trail maxT).length ≤ maxT
    unfold jsSliceNeg
    rw [if_neg hmaxT.ne']
    rw [List.length_drop]
    omega

/-- C4: every tick preserves the vessel-state invariant — whenever every
    pre-tick vessel has heading in `[0, 360)`, `|turnRate| ≤ 3`,
    nonnegative speed, in-range demanded values and a trail within the
    configured maximum, then after `updateSimulation` (with a positive
    tick size and a positive configured trail maximum) every vessel still
    does. -/
theorem C4_tick_preserves_invariant (maxTrail : ℕ) (ships : List Ship)
    (land : List LandPolygon) (t : ℕ) (m : ℝ)
    (hmax : 0 < maxTrail) (hm : 0 < m)
    (hinv : ∀ s ∈ ships, ShipInv maxTrail s) :
    ∀ s ∈ updateSimulation maxTrail ships land t m, ShipInv maxTrail s := by
  intro s hs
  unfold updateSimulation at hs
  split at hs
  · simp at hs
  · dsimp only at hs
    have h0 : ∀ x ∈ ships, ShipKinInv x := fun x hx => (hinv x hx).1
    have hp1 := avoidancePass_kin land h0
    have hp2 := checkGrounding_kin land hp1
    have hp3 := checkShipCollisions_kin hp2
    have hp4 : ∀ x ∈ (checkShipCollisions
        (checkGrounding (avoidancePass ships land) land)).map
        (fun ship => updateMovement ship m t), ShipKinInv x := by
      intro x hx
      rcases List.mem_map.mp hx with ⟨o2, ho2, rfl⟩
      exact updateMovement_kin o2 m t (hp3 o2 ho2) hm
    exact limitTrailLength_inv maxTrail hmax _ hp4 s hs

/-- Witness: the invariant hypotheses hold for a concrete singleton fleet
    and the conclusion of C4 follows for it. -/
theorem C4_tick_preserves_invariant_witness :
    0 < MAX_TRAIL_LENGTH ∧ (0 : ℝ) < 1 ∧
      (∀ s ∈ [mkShip 0 50 100], ShipInv MAX_TRAIL_LENGTH s) ∧
      ∀ s ∈ updateSimulation MAX_TRAIL_LENGTH [mkShip 0 50 100] [] 0 1,
        ShipInv MAX_TRAIL_LENGTH s := by
  have hinv : ∀ s ∈ [mkShip 0 50 100], ShipInv MAX_TRAIL_LENGTH s := by
    intro s hs
    rw [List.mem_singleton] at hs
    subst hs
    refine ⟨⟨by norm_num [mkShip], by norm_num [mkShip], by norm_num [mkShip],
      by norm_num [mkShip], ?_, ?_, ?_⟩, by norm_num [mkShip, MAX_TRAIL_LENGTH]⟩ <;>
      (intro v hv; simp [mkShip] at hv)
  exact ⟨by norm_num [MAX_TRAIL_LENGTH], by norm_num, hinv,
    C4_tick_preserves_invariant MAX_TRAIL_LENGTH [mkShip 0 50 100] [] 0 1
      (by norm_num [MAX_TRAIL_LENGTH]) (by norm_num) hinv⟩

/-- A frozen (disabled or aground) ship passes through the arbiter
    unchanged. -/
theorem avoidCollisions_frozen (s : Ship) (o : List Ship) (l : List LandPolygon)
    (hf : s.status = ShipStatus.disabled ∨ s.status = ShipStatus.aground) :
    avoidCollisions s o l = s := by
  unfold avoidCollisions
  rcases hf with h | h
  · rw [if_pos (Or.inl h)]
  · rw [if_pos (Or.inr (Or.inl h))]

/-- A frozen ship passes through the movement update unchanged. -/
theorem updateMovement_frozen (s : Ship) (m : ℝ) (t : ℕ)
    (hf : s.status = ShipStatus.disabled ∨ s.status = ShipStatus.aground) :
    updateMovement s m t = s := by
  unfold updateMovement
  rw [if_pos hf]

/-- The avoidance pass leaves a frozen ship untouched at its index. -/
theorem avoidancePass_getElem_frozen {ships : List Ship} {i : ℕ} {s : Ship}
    (hi : ships[i]? = some s)
    (hf : s.status = ShipStatus.disabled ∨ s.status = ShipStatus.aground)
    (l : List LandPolygon) : (avoidancePass ships l)[i]? = some s := by
  unfold avoidancePass
  rw [List.getElem?_map, hi]
  simp only [Option.map_some']
  by_cases hact : (!s.collisionAvoidanceActive) = true
  · rw [if_pos hact]
  · rw [if_neg hact]
    rw [avoidCollisions_frozen s _ l hf]

/-- The avoidance pass leaves a ship with `collisionAvoidanceActive`
    false untouched at its index. -/
theorem avoidancePass_getElem_inactive {ships : List Ship} {i : ℕ} {s : Ship}
    (hi : ships[i]? = some s) (hact : s.collisionAvoidanceActive = false)
    (l : List LandPolygon) : (avoidancePass ships l)[i]? = some s := by
  unfold avoidancePass
  rw [List.getElem?_map, hi]
  simp only [Option.map_some']
  rw [if_pos (show (!s.collisionAvoidanceActive) = true by rw [hact]; rfl)]

/-- The grounding pass leaves a frozen ship untouched at its index. -/
theorem checkGrounding_getElem_frozen {ships : List Ship} {i : ℕ} {s : Ship}
    (hi : ships[i]? = some s)
    (hf : s.status = ShipStatus.disabled ∨ s.status = ShipStatus.aground)
    (l : List LandPolygon) : (checkGrounding ships l)[i]? = some s := by
  unfold checkGrounding
  rw [List.getElem?_map, hi]
  simp only [Option.map_some']
  rw [if_pos hf]

/-- One inner collision step never writes to the slot of a frozen ship
    (the frozen partner check skips the pair; other writes go to other
    indices). -/
theorem resolvePair_getElem_frozen {l : List Ship} {i : ℕ} {s : Ship}
    (hi : l[i]? = some s)
    (hf : s.status = ShipStatus.disabled ∨ s.status = ShipStatus.aground)
    (i0 j : ℕ) (hne : ¬ i0 = i) (shipI : Ship) :
    (resolvePair l i0 j shipI)[i]? = some s := by
  unfold resolvePair
  by_cases hji : j = i
  · subst hji
    rw [hi]
    dsimp only
    rw [if_pos hf]
    exact hi
  · rcases hj : l[j]? with _ | other
    · exact hi
    · dsimp only
      by_cases hother : other.status = ShipStatus.disabled ∨ other.status = ShipStatus.aground
      · rw [if_pos hother]
        exact hi
      · rw [if_neg hother]
        by_cases hclose : collisionSeparation shipI other <
            (shipI.dimensions.length / 1852 + other.dimensions.length / 1852) / 2
        · rw [if_pos hclose]
          by_cases heq : shipI.dimensions.length = other.dimensions.length
          · rw [if_pos heq]
            rw [List.getElem?_set_ne hji, List.getElem?_set_ne hne]
            exact hi
          · rw [if_neg heq]
            by_cases hlt : shipI.dimensions.length < other.dimensions.length
            · rw [if_pos hlt, List.getElem?_set_ne hne]
              exact hi
            · rw [if_neg hlt, List.getElem?_set_ne hji]
              exact hi
        · rw [if_neg hclose]
          exact hi

/-- One outer collision iteration never changes the slot of a frozen
    ship. -/
theorem collideOuterStep_getElem_frozen {l : List Ship} {i : ℕ} {s : Ship}
    (hi : l[i]? = some s)
    (hf : s.status = ShipStatus.disabled ∨ s.status = ShipStatus.aground)
    (i0 : ℕ) : (collideOuterStep l i0)[i]? = some s := by
  unfold collideOuterStep
  by_cases hii : i0 = i
  · subst hii
    rw [hi]
    dsimp only
    rw [if_pos hf]
    exact hi
  · rcases hI : l[i0]? with _ | shipI
    · exact hi
    · dsimp only
      by_cases hfI : shipI.status = ShipStatus.disabled ∨ shipI.status = ShipStatus.aground
      · rw [if_pos hfI]
        exact hi
      · rw [if_neg hfI]
        exact foldl_pres (fun acc => acc[i]? = some s)
          (fun acc j => resolvePair acc i0 j shipI)
          (fun acc j hacc => resolvePair_getElem_frozen hacc hf i0 j hii shipI)
          (List.range' (i0 + 1) (l.length - (i0 + 1))) l hi

/-- The whole collision pass never changes the slot of a frozen ship. -/
theorem checkShipCollisions_getElem_frozen {l : List Ship} {i : ℕ} {s : Ship}
    (hi : l[i]? = some s)
    (hf : s.status = ShipStatus.disabled ∨ s.status = ShipStatus.aground) :
    (checkShipCollisions l)[i]? = some s := by
  unfold checkShipCollisions
  exact foldl_pres (fun acc => acc[i]? = some s) collideOuterStep
    (fun acc j hacc => collideOuterStep_getElem_frozen hacc hf j)
    (List.range l.length) l hi

/-- One tick changes a frozen ship at most in its trail (which the trim
    pass may shorten). -/
theorem updateSimulation_frozen {ships : List Ship} {i : ℕ} {s : Ship}
    (hi : ships[i]? = some s)
    (hf : s.status = ShipStatus.disabled ∨ s.status = ShipStatus.aground)
    (maxT : ℕ) (l : List LandPolygon) (t : ℕ) (m : ℝ) :
    ∃ tl, (updateSimulation maxT ships l t m)[i]? = some { s with trail := tl } := by
  have hlen : ¬ ships.length = 0 := by
    intro h0
    rw [List.length_eq_zero] at h0
    subst h0
    simp at hi
  have h1 := avoidancePass_getElem_frozen hi hf l
  have h2 := checkGrounding_getElem_frozen h1 hf l
  have h3 := checkShipCollisions_getElem_frozen h2 hf
  unfold updateSimulation
  rw [if_neg hlen]
  dsimp only
  unfold limitTrailLength
  rw [List.getElem?_map, List.getElem?_map, h3]
  simp only [Option.map_some']
  rw [updateMovement_frozen s m t hf]
  by_cases hlen2 : s.trail.length ≤ maxT
  · refine ⟨s.trail, ?_⟩
    rw [if_pos hlen2]
  · refine ⟨jsSliceNeg s.trail maxT, ?_⟩
    rw [if_neg hlen2]

/-- Across any number of ticks, a frozen ship keeps its position, heading,
    speed, turn rate, demanded values and status. -/
theorem iterateSim_frozen (maxT : ℕ) (l : List LandPolygon) (m : ℝ) :
    ∀ (n : ℕ) (ships : List Ship) (i : ℕ) (s : Ship), ships[i]? = some s →
      s.status = ShipStatus.disabled ∨ s.status = ShipStatus.aground →
      ∃ s', (iterateSim maxT l m n ships)[i]? = some s' ∧
        s'.position = s.position ∧ s'.heading = s.heading ∧ s'.speed = s.speed ∧
        s'.turnRate = s.turnRate ∧ s'.demandedCourse = s.demandedCourse ∧
        s'.demandedSpeed = s.demandedSpeed ∧ s'.status = s.status := by
  intro n
  induction n with
  | zero =>
    intro ships i s hi hf
    exact ⟨s, hi, rfl, rfl, rfl, rfl, rfl, rfl, rfl⟩
  | succ k ih =>
    intro ships i s hi hf
    obtain ⟨tl, htick⟩ := updateSimulation_frozen hi hf maxT l 0 m
    obtain ⟨s', hs', hp, hh, hsp, ht, hdc2, hds2, hst⟩ :=
      ih (updateSimulation maxT ships l 0 m) i { s with trail := tl } htick hf
    exact ⟨s', by simpa [iterateSim] using hs', hp, hh, hsp, ht, hdc2, hds2, hst⟩

/-- C5: a vessel that is aground or disabled is returned untouched by the
    behavior pass and keeps its position, heading, speed, turn rate,
    demanded course/speed and status across every number of subsequent
    ticks; and the behavior pass returns any vessel whose
    `collisionAvoidanceActive` flag is false completely untouched. -/
theorem C5_frozen_vessel_untouched (maxTrail : ℕ) (land : List LandPolygon) (m : ℝ)
    (ships : List Ship) (i : ℕ) (s : Ship) (hs : ships[i]? = some s) :
    ((s.status = ShipStatus.aground ∨ s.status = ShipStatus.disabled) →
      ((avoidancePass ships land)[i]? = some s ∧
        ∀ n : ℕ, ∃ s', (iterateSim maxTrail land m n ships)[i]? = some s' ∧
          s'.position = s.position ∧ s'.heading = s.heading ∧ s'.speed = s.speed ∧
          s'.turnRate = s.turnRate ∧ s'.demandedCourse = s.demandedCourse ∧
          s'.demandedSpeed = s.demandedSpeed ∧ s'.status = s.status)) ∧
    (s.collisionAvoidanceActive = false → (avoidancePass ships land)[i]? = some s) := by
  constructor
  · intro hf
    refine ⟨avoidancePass_getElem_frozen hs hf.symm land, ?_⟩
    intro n
    exact iterateSim_frozen maxTrail land m n ships i s hs hf.symm
  · intro hact
    exact avoidancePass_getElem_inactive hs hact land

/-- A disabled, avoidance-inactive concrete vessel for exercising the
    frozen-vessel theorem. -/
def frozenShip : Ship :=
  { mkShip 1 50 100 with status := ShipStatus.disabled, collisionAvoidanceActive := false }

/-- Witness: the frozen-vessel theorem applied to a concrete singleton
    fleet holding a disabled ship. -/
theorem C5_frozen_vessel_untouched_witness :
    ([frozenShip] : List Ship)[0]? = some frozenShip ∧
      (((frozenShip.status = ShipStatus.aground ∨ frozenShip.status = ShipStatus.disabled) →
        ((avoidancePass [frozenShip] [])[0]? = some frozenShip ∧
          ∀ n : ℕ, ∃ s', (iterateSim 100 [] 1 n [frozenShip])[0]? = some s' ∧
            s'.position = frozenShip.position ∧ s'.heading = frozenShip.heading ∧
            s'.speed = frozenShip.speed ∧ s'.turnRate = frozenShip.turnRate ∧
            s'.demandedCourse = frozenShip.demandedCourse ∧
            s'.demandedSpeed = frozenShip.demandedSpeed ∧
            s'.status = frozenShip.status)) ∧
      (frozenShip.collisionAvoidanceActive = false →
        (avoidancePass [frozenShip] [])[0]? = some frozenShip)) :=
  ⟨rfl, C5_frozen_vessel_untouched 100 [] 1 [frozenShip] 0 frozenShip rfl⟩

/-! ### C6: the CPA rejection tests the own run, not the pair separation -/

theorem dLat3_pos : 0 < dLat3 := by
  unfold dLat3 toDegrees
  exact mul_pos threeR_pos (div_pos (by norm_num) Real.pi_pos)

/-- The spec's fourth rejection condition, built from its words: the
    projected separation between the two vessels at the time of closest
    approach, in the same flat-earth frame as the quadratic
    (`√(a·t*² + b·t* + c)` NM).  The code's `cpaDistance` is a different
    quantity (the own ship's run to its own projected position). -/
def specProjectedSeparation (ship1Lat ship1Lon ship1Heading ship1Speed
    ship2Lat ship2Lon ship2Heading ship2Speed : ℝ) : ℝ :=
  Real.sqrt (cpaA ship1Heading ship1Speed ship2Heading ship2Speed *
      cpaT ship1Lat ship1Lon ship1Heading ship1Speed ship2Lat ship2Lon ship2Heading
        ship2Speed ^ 2 +
    cpaB ship1Lat ship1Lon ship1Heading ship1Speed ship2Lat ship2Lon ship2Heading ship2Speed *
      cpaT ship1Lat ship1Lon ship1Heading ship1Speed ship2Lat ship2Lon ship2Heading ship2Speed +
    cpaC ship1Lat ship1Lon ship2Lat ship2Lon)

theorem cpa_head_on_vx : cpaVx 0 10 180 10 = 0 := by
  unfold cpaVx
  rw [toRadians_pi, toRadians_zero]
  norm_num

theorem cpa_head_on_vy : cpaVy 0 10 180 10 = -(1/3) := by
  unfold cpaVy
  rw [toRadians_pi, toRadians_zero, Real.cos_pi, Real.cos_zero]
  norm_num

theorem cpa_head_on_dx : cpaDx 50 (-1) (50 + dLat3) (-1) = 0 := by
  unfold cpaDx
  norm_num

theorem cpa_head_on_dy : cpaDy 50 (50 + dLat3) = 60 * dLat3 := by
  unfold cpaDy
  ring

theorem cpa_head_on_a : cpaA 0 10 180 10 = 1/9 := by
  unfold cpaA
  rw [cpa_head_on_vx, cpa_head_on_vy]
  norm_num

theorem cpa_head_on_b : cpaB 50 (-1) 0 10 (50 + dLat3) (-1) 180 10 = -(40 * dLat3) := by
  unfold cpaB
  rw [cpa_head_on_dx, cpa_head_on_dy, cpa_head_on_vx, cpa_head_on_vy]
  ring

theorem cpa_head_on_c : cpaC 50 (-1) (50 + dLat3) (-1) = 3600 * (dLat3 * dLat3) := by
  unfold cpaC
  rw [cpa_head_on_dx, cpa_head_on_dy]
  ring

theorem cpa_head_on_t : cpaT 50 (-1) 0 10 (50 + dLat3) (-1) 180 10 = 180 * dLat3 := by
  unfold cpaT
  rw [cpa_head_on_b, cpa_head_on_a]
  field_simp
  ring

theorem cpa_head_on_lat : cpaLat 50 (-1) 0 10 (50 + dLat3) (-1) 180 10 = 50 + dLat3 / 2 := by
  unfold cpaLat
  rw [toRadians_zero, Real.cos_zero, cpa_head_on_t]
  ring

theorem cpa_head_on_lon : cpaLon 50 (-1) 0 10 (50 + dLat3) (-1) 180 10 = -1 := by
  unfold cpaLon
  rw [toRadians_zero, Real.sin_zero, cpa_head_on_t]
  ring

/-- At the head-on pair, the code's `cpaDistance` is the own ship's
    1.5 NM run to the midpoint, not the 0 NM separation of the pair. -/
theorem cpa_head_on_distance :
    cpaDistance 50 (-1) 0 10 (50 + dLat3) (-1) 180 10 = 1.5 := by
  unfold cpaDistance
  rw [cpa_head_on_lat, cpa_head_on_lon]
  rw [show (50 : ℝ) + dLat3 / 2 = 50 + toDegrees (3 / R / 2) by unfold dLat3 toDegrees; ring]
  rw [calculateDistance_due_north 50 (-1) (3 / R / 2)
    (by linarith [threeR_pos]) (by linarith [threeR_pos, threeR_lt_pi])]
  have hR : R ≠ 0 := R_pos.ne'
  field_simp
  ring

/-- At the head-on pair, the two projected positions coincide: the spec's
    projected separation at closest approach is exactly zero. -/
theorem cpa_head_on_sep :
    specProjectedSeparation 50 (-1) 0 10 (50 + dLat3) (-1) 180 10 = 0 := by
  unfold specProjectedSeparation
  rw [cpa_head_on_a, cpa_head_on_b, cpa_head_on_c, cpa_head_on_t]
  rw [show (1/9 : ℝ) * (180 * dLat3) ^ 2 + -(40 * dLat3) * (180 * dLat3) +
    3600 * (dLat3 * dLat3) = 0 by ring]
  exact Real.sqrt_zero

/-- C6: at the head-on failing input — two vessels 3 NM apart on the same
    meridian, reciprocal headings 000°/180°, 10 kt each — none of the
    claim's four rejection conditions holds: the relative motion is
    nondegenerate (`|a| = 1/9`), the discriminant is zero (not negative),
    the time of closest approach is nonnegative, and the projected
    separation of the two vessels at that time is 0 NM ≤ 0.5 NM.  Yet
    `calculateCollisionPoint` returns `none`, because its 0.5 NM test is
    applied to `cpaDistance`, the own ship's 1.5 NM run from its current
    position to its own projected position, not to the separation of the
    pair. -/
theorem C6_cpa_projected_separation_bug :
    calculateCollisionPoint 50 (-1) 0 10 (50 + dLat3) (-1) 180 10 = none ∧
    ¬ |cpaA 0 10 180 10| < 1e-10 ∧
    ¬ (cpaB 50 (-1) 0 10 (50 + dLat3) (-1) 180 10 *
          cpaB 50 (-1) 0 10 (50 + dLat3) (-1) 180 10 -
        4 * cpaA 0 10 180 10 * cpaC 50 (-1) (50 + dLat3) (-1) < 0) ∧
    ¬ cpaT 50 (-1) 0 10 (50 + dLat3) (-1) 180 10 < 0 ∧
    specProjectedSeparation 50 (-1) 0 10 (50 + dLat3) (-1) 180 10 ≤ 0.5 ∧
    cpaDistance 50 (-1) 0 10 (50 + dLat3) (-1) 180 10 = 1.5 := by
  have hA : ¬ |cpaA 0 10 180 10| < 1e-10 := by
    rw [cpa_head_on_a, abs_of_pos (by norm_num : (0:ℝ) < 1/9)]
    norm_num
  have hD : ¬ (cpaB 50 (-1) 0 10 (50 + dLat3) (-1) 180 10 *
        cpaB 50 (-1) 0 10 (50 + dLat3) (-1) 180 10 -
      4 * cpaA 0 10 180 10 * cpaC 50 (-1) (50 + dLat3) (-1) < 0) := by
    rw [cpa_head_on_b, cpa_head_on_a, cpa_head_on_c,
      show -(40 * dLat3) * -(40 * dLat3) - 4 * (1/9) * (3600 * (dLat3 * dLat3)) = 0 by ring]
    norm_num
  have hT : ¬ cpaT 50 (-1) 0 10 (50 + dLat3) (-1) 180 10 < 0 := by
    rw [cpa_head_on_t]
    push_neg
    linarith [dLat3_pos]
  have hM : cpaDistance 50 (-1) 0 10 (50 + dLat3) (-1) 180 10 > 0.5 := by
    rw [cpa_head_on_distance]
    norm_num
  refine ⟨?_, hA, hD, hT, ?_, cpa_head_on_distance⟩
  · exact (calculateCollisionPoint_none_iff 50 (-1) 0 10 (50 + dLat3) (-1) 180 10).1.mpr
      (Or.inr (Or.inr (Or.inr hM)))
  · rw [cpa_head_on_sep]
    norm_num

/-! ### C7: the post-ramp snap breaks the 1·Δt speed bound -/

/-- The speed after one motion update is the old speed (frozen ship), the
    ramped speed, or — when the ramped speed lands within 0.1 knot of the
    demanded speed — the demanded speed itself. -/
theorem updateMovement_speed (s : Ship) (m : ℝ) (t : ℕ) :
    (updateMovement s m t).speed = s.speed ∨
    (updateMovement s m t).speed = calculateNewSpeed s.speed s.demandedSpeed m ∨
    ∃ ds, s.demandedSpeed = some ds ∧
      |calculateNewSpeed s.speed s.demandedSpeed m - ds| < 0.1 ∧
      (updateMovement s m t).speed = ds := by
  unfold updateMovement
  split
  · exact Or.inl rfl
  · dsimp only
    rcases hc : s.demandedCourse with _ | dc
    · dsimp only
      rcases hd2 : s.demandedSpeed with _ | ds
      · exact Or.inr (Or.inl rfl)
      · dsimp only
        by_cases hss : |calculateNewSpeed s.speed (some ds) m - ds| < 0.1
        · rw [if_pos hss]
          exact Or.inr (Or.inr ⟨ds, rfl, hss, rfl⟩)
        · rw [if_neg hss]
          exact Or.inr (Or.inl rfl)
    · dsimp only
      by_cases hhs : |(calculateNewHeading s.heading s.turnRate (some dc) m).1 - dc| < 0.1 ∧
          |(calculateNewHeading s.heading s.turnRate (some dc) m).2| < 0.1
      · rw [if_pos hhs]
        dsimp only
        rcases hd2 : s.demandedSpeed with _ | ds
        · exact Or.inr (Or.inl rfl)
        · dsimp only
          by_cases hss : |calculateNewSpeed s.speed (some ds) m - ds| < 0.1
          · rw [if_pos hss]
            exact Or.inr (Or.inr ⟨ds, rfl, hss, rfl⟩)
          · rw [if_neg hss]
            exact Or.inr (Or.inl rfl)
      · rw [if_neg hhs]
        dsimp only
        rcases hd2 : s.demandedSpeed with _ | ds
        · exact Or.inr (Or.inl rfl)
        · dsimp only
          by_cases hss : |calculateNewSpeed s.speed (some ds) m - ds| < 0.1
          · rw [if_pos hss]
            exact Or.inr (Or.inr ⟨ds, rfl, hss, rfl⟩)
          · rw [if_neg hss]
            exact Or.inr (Or.inl rfl)

/-- A concrete underway vessel at 10 kt with a demanded speed of
    11.05 kt. -/
def c7Ship : Ship := { mkShip 0 50 100 with demandedSpeed := some 11.05 }

/-- The one-minute ramp from 10 kt toward 11.05 kt stops at 11 kt. -/
theorem c7_ramp_eval : calculateNewSpeed 10 (some 11.05) 1 = 11 := by
  have habs : ¬ |(11.05 : ℝ) - 10| ≤ 1 * 1 := by
    rw [show (11.05 : ℝ) - 10 = 1.05 by norm_num,
      abs_of_pos (by norm_num : (0:ℝ) < 1.05)]
    norm_num
  unfold calculateNewSpeed
  dsimp only
  rw [if_neg (by norm_num : ¬(11.05 : ℝ) = 0)]
  rw [if_neg habs, show (11.05 : ℝ) - 10 = 1.05 by norm_num,
    Real.sign_of_pos (by norm_num : (0:ℝ) < 1.05)]
  norm_num

/-- The motion update then snaps the ramped 11 kt to the demanded
    11.05 kt, because they differ by less than 0.1 knot. -/
theorem c7_update_eval : (updateMovement c7Ship 1 0).speed = 11.05 := by
  have hlt : |(11 : ℝ) - 11.05| < 0.1 := by
    rw [show (11 : ℝ) - 11.05 = -(0.05) by norm_num, abs_neg,
      abs_of_pos (by norm_num : (0:ℝ) < 0.05)]
    norm_num
  unfold updateMovement
  rw [if_neg (by simp [c7Ship, mkShip] :
    ¬(c7Ship.status = ShipStatus.disabled ∨ c7Ship.status = ShipStatus.aground))]
  dsimp only [c7Ship, mkShip]
  rw [c7_ramp_eval]
  rw [if_pos hlt]

/-- C7 counterexample: one motion update takes the vessel from 10 kt to
    11.05 kt in a one-minute tick — a change of 1.05 kt, violating the
    claimed `1·Δt` bound — because the ramp moves 1 kt and the snap then
    adds the remaining 0.05 kt. -/
theorem C7_snap_counterexample :
    c7Ship.speed = 10 ∧ (updateMovement c7Ship 1 0).speed = 11.05 ∧
      ¬ |(updateMovement c7Ship 1 0).speed - c7Ship.speed| ≤ 1 * 1 := by
  refine ⟨rfl, c7_update_eval, ?_⟩
  rw [c7_update_eval]
  show ¬ |(11.05 : ℝ) - 10| ≤ 1 * 1
  rw [show (11.05 : ℝ) - 10 = 1.05 by norm_num,
    abs_of_pos (by norm_num : (0:ℝ) < 1.05)]
  norm_num

/-- C7 amended: one motion update changes the speed by strictly less than
    `1·Δt + 0.1` knots — the ramp contributes at most `1·Δt` and the
    snap-to-demand strictly less than 0.1 knot on top. -/
theorem C7_amended_motion_speed_bound (s : Ship) (m : ℝ) (t : ℕ) (hm : 0 ≤ m) :
    |(updateMovement s m t).speed - s.speed| < 1 * m + 0.1 := by
  have hramp := calculateNewSpeed_ramp_bound s.speed s.demandedSpeed m hm
  rcases updateMovement_speed s m t with h | h | ⟨ds, hd2, hsnap, h⟩
  · rw [h, sub_self, abs_zero]
    linarith
  · rw [h]
    linarith
  · rw [h]
    have htri : |ds - s.speed| ≤ |ds - calculateNewSpeed s.speed s.demandedSpeed m| +
        |calculateNewSpeed s.speed s.demandedSpeed m - s.speed| :=
      abs_sub_le ds (calculateNewSpeed s.speed s.demandedSpeed m) s.speed
    have hsnap2 : |ds - calculateNewSpeed s.speed s.demandedSpeed m| < 0.1 := by
      rw [abs_sub_comm]
      exact hsnap
    linarith

/-- Witness: the amended motion-update speed bound at a concrete vessel
    and a one-minute tick. -/
theorem C7_amended_motion_speed_bound_witness :
    (0 : ℝ) ≤ 1 ∧
      |(updateMovement (mkShip 0 50 100) 1 0).speed - (mkShip 0 50 100).speed| <
        1 * 1 + 0.1 :=
  ⟨by norm_num, C7_amended_motion_speed_bound (mkShip 0 50 100) 1 0 (by norm_num)⟩

end

end ShipSim
